import Mathlib

/-!
A verification development for the x-consensus repository.

The two service components (`services/x_api_service.py` and
`services/grok_service.py`) are embedded shallowly: Python strings become
`List Char`, Python dictionaries become association lists, JSON values become
an inductive `Json` type, the network becomes an explicit list of mocked
upstream responses, and every fallible Python operation becomes an
`Except`-valued Lean function.  Wall-clock time is abstracted away: the
`asyncio.sleep` pacing calls only affect timing, so they are recorded (where a
property mentions them) as a list of slept durations rather than executed.
Python raises generic `Exception(message)` values; each distinct raise site
gets its own constructor in the error types below, since the message text
uniquely identifies the site.
-/

/-- Python strings are modelled as lists of characters. -/
abbrev Str := List Char

instance exceptDecEq {ε α : Type} [DecidableEq ε] [DecidableEq α] :
    DecidableEq (Except ε α) := fun x y =>
  match x, y with
  | .ok a, .ok b =>
    if h : a = b then .isTrue (congrArg Except.ok h)
    else .isFalse (fun hc => h (Except.ok.inj hc))
  | .error a, .error b =>
    if h : a = b then .isTrue (congrArg Except.error h)
    else .isFalse (fun hc => h (Except.error.inj hc))
  | .ok _, .error _ => .isFalse (fun hc => Except.noConfusion hc)
  | .error _, .ok _ => .isFalse (fun hc => Except.noConfusion hc)

namespace StrUtil

/-- Python whitespace characters recognised by `str.strip`. -/
def isPyWs (c : Char) : Bool :=
  c = ' ' || c = '\t' || c = '\n' || c = '\r' || c = '\x0b' || c = '\x0c'

/-- `str.strip()`: remove leading and trailing whitespace. -/
def pyStrip (s : Str) : Str :=
  ((s.dropWhile isPyWs).reverse.dropWhile isPyWs).reverse

/-- Match a literal prefix; on success return the remaining suffix. -/
def dropPre? : Str → Str → Option Str
  | [], s => some s
  | p :: ps, s =>
    match s with
    | [] => none
    | c :: cs => if c = p then dropPre? ps cs else none

/-- `str.startswith`. -/
def startsWithL (s p : Str) : Bool := (dropPre? p s).isSome

/-- `str.endswith`. -/
def endsWithL (s p : Str) : Bool := (dropPre? p.reverse s.reverse).isSome

/-- `s[:-n]` for `0 < n ≤ len s` (drop the last `n` characters). -/
def dropRightL (s : Str) (n : Nat) : Str := s.take (s.length - n)

/-- Index of the first occurrence of `c`, if any. -/
def findIdxC? : Str → Char → Option Nat
  | [], _ => none
  | a :: rest, c =>
    if a = c then some 0 else (findIdxC? rest c).map (· + 1)

/-- `str.find`: first index of `c`, `-1` when absent. -/
def pyFindC (s : Str) (c : Char) : Int :=
  match findIdxC? s c with
  | some i => (i : Int)
  | none => -1

/-- `str.rfind`: last index of `c`, `-1` when absent. -/
def pyRfindC (s : Str) (c : Char) : Int :=
  match findIdxC? s.reverse c with
  | some i => ((s.length : Int) - 1 - (i : Int))
  | none => -1

/-- `s[a:b]` for non-negative bounds. -/
def pySlice (s : Str) (a b : Int) : Str := (s.take b.toNat).drop a.toNat

/-- `sep.join(parts)`. -/
def joinSep (sep : Str) : List Str → Str
  | [] => []
  | [x] => x
  | x :: rest => x ++ sep ++ joinSep sep rest

@[simp] theorem dropPre?_nil (s : Str) : dropPre? [] s = some s := rfl

theorem dropPre?_append (p s : Str) : dropPre? p (p ++ s) = some s := by
  induction p with
  | nil => rfl
  | cons c cs ih => simp [dropPre?, ih]

theorem length_dropWhile_le (p : Char → Bool) (l : Str) :
    (l.dropWhile p).length ≤ l.length := by
  induction l with
  | nil => simp [List.dropWhile]
  | cons c cs ih =>
    by_cases h : p c
    · simp [List.dropWhile, h]; omega
    · simp [List.dropWhile, h]

theorem length_pyStrip_le (s : Str) : (pyStrip s).length ≤ s.length := by
  unfold pyStrip
  have h1 := length_dropWhile_le isPyWs s
  have h2 := length_dropWhile_le isPyWs (s.dropWhile isPyWs).reverse
  simp only [List.length_reverse] at h2 ⊢
  omega

theorem dropWhile_cons_false {p : Char → Bool} {c : Char} (l : Str)
    (h : p c = false) : (c :: l).dropWhile p = c :: l := by
  simp [List.dropWhile, h]

/-- A string with non-whitespace first and last characters strips to itself. -/
theorem pyStrip_of_ends {a b : Char} (mid : Str)
    (ha : isPyWs a = false) (hb : isPyWs b = false) :
    pyStrip (a :: (mid ++ [b])) = a :: (mid ++ [b]) := by
  unfold pyStrip
  rw [dropWhile_cons_false _ ha]
  have : (a :: (mid ++ [b])).reverse = b :: (mid.reverse ++ [a]) := by
    simp
  rw [this, dropWhile_cons_false _ hb]
  simp

end StrUtil

open StrUtil

/-! ## The URL pattern of `extract_thread_id`

`x_api_service.extract_thread_id` applies
`re.search(r'https?://(twitter\.com|x\.com)/\w+/status/(\d+)', url)` and
returns group 2.  The regular expression is embedded directly: `reMatchAt`
decides whether the pattern matches at the start of a given suffix (returning
group 2, the maximal digit run), and `reSearch` scans start positions left to
right the way `re.search` does.  Only ASCII word and digit characters are
modelled (the Python pattern would additionally accept non-ASCII word
characters under its default Unicode semantics). -/

namespace XApi

/-- ASCII model of the `\w` character class. -/
def isWordChar (c : Char) : Bool := c.isAlpha || c.isDigit || c = '_'

/-- Match `s?://` (the tail of `https?://`) at the head of the input.
The optional `s` is deterministic: at most one alternative can succeed. -/
def matchSchemeTail (s : Str) : Option Str :=
  match dropPre? ('s' :: (("://").toList)) s with
  | some r => some r
  | none => dropPre? (("://").toList) s

/-- Match the host alternation `(twitter\.com|x\.com)`. -/
def matchHost (s : Str) : Option Str :=
  match dropPre? (("twitter.com").toList) s with
  | some r => some r
  | none => dropPre? (("x.com").toList) s

/-- Attempt to match the whole pattern at the start of `s`; on success return
group 2 (the digit run of the status id). -/
def reMatchAt (s : Str) : Option Str := do
  let s ← dropPre? (("http").toList) s
  let s ← matchSchemeTail s
  let s ← matchHost s
  let s ← dropPre? ['/'] s
  let handle := s.takeWhile isWordChar
  if handle.isEmpty then none else
  let s := s.dropWhile isWordChar
  let s ← dropPre? (("/status/").toList) s
  let digits := s.takeWhile Char.isDigit
  if digits.isEmpty then none else some digits

/-- `re.search`: try every start position, leftmost match wins.  (The match
can never start at the empty suffix, so stopping at `[]` is equivalent to
also trying the final empty position.) -/
def reSearch : Str → Option Str
  | [] => none
  | c :: cs =>
    match reMatchAt (c :: cs) with
    | some g => some g
    | none => reSearch cs

/-- Error raised by `extract_thread_id` on a non-matching URL:
`ValueError("Invalid X/Twitter URL format")`. -/
inductive UrlErr where
  | invalidFormat
  deriving DecidableEq

/-- `XAPIService.extract_thread_id`. -/
def extract_thread_id (url : Str) : Except UrlErr Str :=
  match reSearch url with
  | some g => .ok g
  | none => .error .invalidFormat

/-- A well-formed thread URL as described by the pattern. -/
def mkThreadUrl (scheme host handle tid : Str) : Str :=
  scheme ++ (("://").toList) ++ host ++ ('/' :: handle) ++ (("/status/").toList) ++ tid

theorem takeWhile_append_of {p : Char → Bool} :
    ∀ (a b : Str), (∀ c ∈ a, p c = true) →
      (∀ c, b.head? = some c → p c = false) →
      (a ++ b).takeWhile p = a ∧ (a ++ b).dropWhile p = b := by
  intro a
  induction a with
  | nil =>
    intro b _ hb
    cases b with
    | nil => exact ⟨rfl, rfl⟩
    | cons c cs =>
      have hc : p c = false := hb c rfl
      simp [List.takeWhile, List.dropWhile, hc]
  | cons x xs ih =>
    intro b ha hb
    have hx : p x = true := ha x (by simp)
    have := ih b (fun c hc => ha c (by simp [hc])) hb
    simp [List.takeWhile, List.dropWhile, hx, this.1, this.2]

theorem dropPre?_cons_ne {p c : Char} {ps cs : Str} (h : c ≠ p) :
    dropPre? (p :: ps) (c :: cs) = none := by
  simp [dropPre?, h]

theorem matchSchemeTail_s (r : Str) :
    matchSchemeTail ('s' :: ':' :: '/' :: '/' :: r) = some r := by
  simp [matchSchemeTail, dropPre?]

theorem matchSchemeTail_nos (r : Str) :
    matchSchemeTail (':' :: '/' :: '/' :: r) = some r := by
  simp [matchSchemeTail, dropPre?]

theorem matchHost_tw (r : Str) :
    matchHost ((("twitter.com").toList) ++ r) = some r := by
  unfold matchHost
  rw [dropPre?_append]

theorem matchHost_x (r : Str) :
    matchHost ((("x.com").toList) ++ r) = some r := by
  have h : (("x.com").toList) ++ r = 'x' :: ((".com").toList ++ r) := rfl
  rw [h, matchHost]
  rw [show (("twitter.com").toList) = 't' :: (("witter.com").toList) from rfl]
  rw [dropPre?_cons_ne (by decide)]
  have h2 : 'x' :: ((".com").toList ++ r) = (("x.com").toList) ++ r := rfl
  rw [h2, dropPre?_append]

/-- The pattern matches at the start of every well-formed URL (possibly
followed by a non-digit suffix) and group 2 is exactly the id. -/
theorem reMatchAt_mkUrl (scheme host handle tid suffix : Str)
    (hs : scheme = ("http").toList ∨ scheme = ("https").toList)
    (hh : host = ("twitter.com").toList ∨ host = ("x.com").toList)
    (hhandle : ∀ c ∈ handle, isWordChar c = true) (hne : handle ≠ [])
    (htid : ∀ c ∈ tid, Char.isDigit c = true) (htidne : tid ≠ [])
    (hsuf : ∀ c, suffix.head? = some c → Char.isDigit c = false) :
    reMatchAt (mkThreadUrl scheme host handle tid ++ suffix) = some tid := by
  have hw : (handle ++ ('/' :: (("status/").toList) ++ (tid ++ suffix))).takeWhile isWordChar
        = handle ∧
      (handle ++ ('/' :: (("status/").toList) ++ (tid ++ suffix))).dropWhile isWordChar
        = '/' :: (("status/").toList) ++ (tid ++ suffix) :=
    takeWhile_append_of handle _ hhandle (by intro c hc; cases hc; rfl)
  have hd : (tid ++ suffix).takeWhile Char.isDigit = tid :=
    (takeWhile_append_of tid suffix htid hsuf).1
  have main : ∀ r : Str, r = host ++ ('/' :: handle) ++ (("/status/").toList) ++ tid ++ suffix →
      (matchHost r).bind (fun s =>
        (dropPre? ['/'] s).bind (fun s =>
          (if (s.takeWhile isWordChar).isEmpty then none else
            (dropPre? (("/status/").toList) (s.dropWhile isWordChar)).bind (fun s =>
              if (s.takeWhile Char.isDigit).isEmpty then none
              else some (s.takeWhile Char.isDigit))))) = some tid := by
    intro r hr
    subst hr
    have hsplit : host ++ ('/' :: handle) ++ (("/status/").toList) ++ tid ++ suffix
        = host ++ ('/' :: (handle ++ ('/' :: (("status/").toList) ++ (tid ++ suffix)))) := by
      simp [List.append_assoc]
    rw [hsplit]
    have hhost2 : matchHost (host ++ ('/' :: (handle ++ ('/' :: (("status/").toList) ++ (tid ++ suffix)))))
        = some ('/' :: (handle ++ ('/' :: (("status/").toList) ++ (tid ++ suffix)))) := by
      rcases hh with h | h <;> subst h
      · exact matchHost_tw _
      · exact matchHost_x _
    rw [hhost2]
    simp only [Option.some_bind']
    rw [show dropPre? ['/'] ('/' :: (handle ++ ('/' :: (("status/").toList) ++ (tid ++ suffix))))
        = some (handle ++ ('/' :: (("status/").toList) ++ (tid ++ suffix))) by simp [dropPre?]]
    simp only [Option.some_bind']
    rw [hw.1, hw.2]
    have hne2 : handle.isEmpty = false := by
      cases handle with
      | nil => exact absurd rfl hne
      | cons _ _ => rfl
    rw [if_neg (by simp [hne2])]
    rw [show ('/' :: (("status/").toList) ++ (tid ++ suffix))
        = (("/status/").toList) ++ (tid ++ suffix) from rfl]
    rw [dropPre?_append]
    simp only [Option.some_bind']
    rw [hd]
    have htidne2 : tid.isEmpty = false := by
      cases tid with
      | nil => exact absurd rfl htidne
      | cons _ _ => rfl
    rw [if_neg (by simp [htidne2])]
  rcases hs with h | h <;> subst h
  · have heq : mkThreadUrl (("http").toList) host handle tid ++ suffix
        = ("http").toList ++ (':' :: '/' :: '/' ::
            (host ++ ('/' :: handle) ++ (("/status/").toList) ++ tid ++ suffix)) := by
      simp [mkThreadUrl, List.append_assoc]
    rw [heq, reMatchAt, dropPre?_append]
    simp only [Option.bind_eq_bind, Option.some_bind']
    rw [matchSchemeTail_nos]
    simp only [Option.some_bind']
    exact main _ rfl
  · have heq : mkThreadUrl (("https").toList) host handle tid ++ suffix
        = ("http").toList ++ ('s' :: ':' :: '/' :: '/' ::
            (host ++ ('/' :: handle) ++ (("/status/").toList) ++ tid ++ suffix)) := by
      simp [mkThreadUrl, List.append_assoc]
    rw [heq, reMatchAt, dropPre?_append]
    simp only [Option.bind_eq_bind, Option.some_bind']
    rw [matchSchemeTail_s]
    simp only [Option.some_bind']
    exact main _ rfl

theorem reSearch_head {s g : Str} (hne : s ≠ []) (h : reMatchAt s = some g) :
    reSearch s = some g := by
  cases s with
  | nil => exact absurd rfl hne
  | cons c cs => simp [reSearch, h]

theorem reMatchAt_nil : reMatchAt [] = none := rfl

theorem reSearch_isSome_of_suffix (a b g : Str) (h : reMatchAt b = some g) :
    (reSearch (a ++ b)).isSome = true := by
  induction a with
  | nil =>
    cases b with
    | nil => rw [reMatchAt_nil] at h; exact absurd h (by simp)
    | cons c cs => simp [reSearch, h]
  | cons x xs ih =>
    show (reSearch (x :: (xs ++ b))).isSome = true
    rw [reSearch]
    cases hm : reMatchAt (x :: (xs ++ b)) with
    | some g2 => rfl
    | none => exact ih

end XApi

/-! ## Data model (`models/schemas.py`)

Engagement counters (`public_metrics`), context annotations and profile
images are payload fields the services never read; they are omitted from the
embedding.  `created_at` is kept as a plain string (the mocked upstream
bodies always carry it, as the pydantic `Tweet` model requires). -/

namespace XApi

/-- One entry of a `referenced_tweets` list: a dict read with `ref.get`. -/
structure TweetRef where
  rtype : Option Str
  rid : Option Str
  deriving DecidableEq

/-- `schemas.TwitterUser` (the fields the services read). -/
structure TwitterUser where
  id : Str
  username : Str
  name : Str
  deriving DecidableEq

/-- `schemas.Tweet` (the fields the services read). -/
structure Tweet where
  id : Str
  text : Str
  author_id : Str
  author_username : Str
  author_name : Option Str
  created_at : Str
  referenced_tweets : Option (List TweetRef)
  conversation_id : Option Str
  deriving DecidableEq

/-- `schemas.ThreadData`. -/
structure ThreadData where
  thread_id : Str
  tweets : List Tweet
  main_tweet : Tweet
  reply_count : Nat
  users : List (Str × TwitterUser)
  referenced_tweets : List (Str × Tweet)
  quote_tweets : List Tweet
  reply_chain : List Tweet
  deriving DecidableEq

/-- Raw user object of an upstream response body. -/
structure RawUser where
  id : Str
  username : Str
  name : Str
  deriving DecidableEq

/-- Raw tweet object of an upstream response body. -/
structure RawTweet where
  id : Str
  text : Str
  author_id : Str
  created_at : Str
  referenced_tweets : Option (List TweetRef)
  conversation_id : Option Str
  deriving DecidableEq

/-- The `includes` expansion object of an upstream response body. -/
structure Includes where
  users : List RawUser
  tweets : List RawTweet
  deriving DecidableEq

/-- An upstream response body (`response.json()`). -/
structure ApiBody where
  data : Option RawTweet
  includes : Includes
  deriving DecidableEq

/-- Python dict insertion (overwrite on duplicate key, keep position). -/
def insertKV {α : Type} : List (Str × α) → Str → α → List (Str × α)
  | [], k, v => [(k, v)]
  | (k0, v0) :: rest, k, v =>
    if k0 = k then (k0, v) :: rest else (k0, v0) :: insertKV rest k v

/-- Python dict lookup (`d.get(k)`). -/
def lookupKV {α : Type} : List (Str × α) → Str → Option α
  | [], _ => none
  | (k0, v0) :: rest, k => if k0 = k then some v0 else lookupKV rest k

/-! ## `XAPIService` state and the mocked upstream -/

/-- The mutable rate-limit fields of `XAPIService`.  `last_request_time`
only influences sleeping and is abstracted away with real time. -/
structure SvcState where
  rate_limit_remaining : Nat
  rate_limit_reset_time : Nat
  monthly_usage : Nat
  deriving DecidableEq

/-- State set in `XAPIService.__init__`. -/
def initState : SvcState := ⟨10, 0, 0⟩

/-- One mocked upstream interaction for a single HTTP request:
a 2xx response with optional rate-limit headers and a JSON body, an HTTP
error status (`raise_for_status` raises, with an optional `retry-after`
header in seconds), or a non-HTTP transport failure. -/
inductive MockResponse where
  | ok (remaining reset : Option Nat) (body : ApiBody)
  | httpErr (status : Nat) (retryAfter : Option Nat)
  | netErr
  deriving DecidableEq

/-- Distinct raise sites reachable from `_make_api_request_with_retry`
(each raises a generic `Exception` whose message identifies the site, except
`httpStatus`, which re-raises the `httpx.HTTPStatusError` itself). -/
inductive ReqErr where
  | monthlyLimit
  | rateLimited
  | httpStatus (status : Nat)
  | network
  | maxRetries
  deriving DecidableEq

/-- `_update_rate_limit_info`: refresh the short-window budget from the
response headers and count one successful call against the monthly quota. -/
def update_rate_limit_info (st : SvcState) (remaining reset : Option Nat) :
    SvcState :=
  { rate_limit_remaining := remaining.getD st.rate_limit_remaining
    rate_limit_reset_time := reset.getD st.rate_limit_reset_time
    monthly_usage := st.monthly_usage + 1 }

/-- `max_retries` in `_make_api_request_with_retry`. -/
def maxRetries : Nat := 3

/-- The `for attempt in range(max_retries)` loop of
`_make_api_request_with_retry`, over the remaining attempt indices.  The
quota check of `_wait_for_rate_limit` runs inside the `try`, so its
exception lands in the generic handler and is retried with exponential
backoff (`base_delay = 1.0`, delay `2 ^ attempt` seconds); a 429 sleeps the
`retry-after` header value (default 60 s) and retries; other HTTP errors
re-raise without retrying.  An exhausted mock list behaves as a transport
failure.  Returns (outcome, final state, requests issued, sleeps). -/
def requestLoop (st : SvcState) :
    List Nat → List MockResponse → Nat → List Nat →
      (Except ReqErr ApiBody) × SvcState × Nat × List Nat
  | [], _, reqs, sleeps => (.error .maxRetries, st, reqs, sleeps)
  | attempt :: rest, resps, reqs, sleeps =>
    if st.monthly_usage ≥ 95 then
      if attempt < maxRetries - 1 then
        requestLoop st rest resps reqs (sleeps ++ [2 ^ attempt])
      else
        (.error .monthlyLimit, st, reqs, sleeps)
    else
      match resps.headD .netErr with
      | .ok remaining reset body =>
        (.ok body, update_rate_limit_info st remaining reset, reqs + 1, sleeps)
      | .httpErr status retryAfter =>
        if status = 429 then
          if attempt < maxRetries - 1 then
            requestLoop st rest resps.tail (reqs + 1)
              (sleeps ++ [retryAfter.getD 60])
          else
            (.error .rateLimited, st, reqs + 1, sleeps)
        else
          (.error (.httpStatus status), st, reqs + 1, sleeps)
      | .netErr =>
        if attempt < maxRetries - 1 then
          requestLoop st rest resps.tail (reqs + 1) (sleeps ++ [2 ^ attempt])
        else
          (.error .network, st, reqs + 1, sleeps)

/-- `_make_api_request_with_retry`. -/
def make_api_request_with_retry (st : SvcState) (resps : List MockResponse) :
    (Except ReqErr ApiBody) × SvcState × Nat × List Nat :=
  requestLoop st (List.range maxRetries) resps 0 []

/-- The raise sites of `get_tweet_by_id`.  Both wrap the underlying failure
into `Exception("Failed to fetch tweet: ...")`; `httpFailure` comes from the
dedicated `httpx.HTTPStatusError` handler, `wrapped` from the generic one. -/
inductive FetchErr where
  | httpFailure (status : Nat)
  | wrapped (e : ReqErr)
  deriving DecidableEq

/-- `get_tweet_by_id`: fetch one tweet through the retrying helper;
a missing `data` key and an upstream 404 both yield `None`. -/
def get_tweet_by_id (st : SvcState) (resps : List MockResponse) :
    (Except FetchErr (Option Tweet)) × SvcState × Nat :=
  match make_api_request_with_retry st resps with
  | (.ok body, st2, reqs, _) =>
    match body.data with
    | none => (.ok none, st2, reqs)
    | some td =>
      let users := body.includes.users.foldl
        (fun acc u => insertKV acc u.id u) []
      let user := lookupKV users td.author_id
      (.ok (some
        { id := td.id
          text := td.text
          author_id := td.author_id
          author_username := (user.map (·.username)).getD (("unknown").toList)
          author_name := user.map (·.name)
          created_at := td.created_at
          referenced_tweets := td.referenced_tweets
          conversation_id := td.conversation_id }), st2, reqs)
  | (.error e, st2, reqs, _) =>
    match e with
    | .httpStatus s =>
      if s = 404 then (.ok none, st2, reqs)
      else (.error (.httpFailure s), st2, reqs)
    | e => (.error (.wrapped e), st2, reqs)

/-- `_parse_users_from_includes`. -/
def parse_users_from_includes (includes : Includes) :
    List (Str × TwitterUser) :=
  includes.users.foldl
    (fun acc u => insertKV acc u.id ⟨u.id, u.username, u.name⟩) []

/-- `_parse_referenced_tweets`. -/
def parse_referenced_tweets (includes : Includes)
    (users : List (Str × TwitterUser)) : List (Str × Tweet) :=
  includes.tweets.foldl
    (fun acc td =>
      let user := lookupKV users td.author_id
      insertKV acc td.id
        { id := td.id
          text := td.text
          author_id := td.author_id
          author_username := (user.map (·.username)).getD (("unknown").toList)
          author_name := user.map (·.name)
          created_at := td.created_at
          referenced_tweets := td.referenced_tweets
          conversation_id := td.conversation_id }) []

/-- The four buckets built by `_categorize_tweets`. -/
structure TweetCategories where
  main_thread : List Tweet
  quote_tweets : List Tweet
  replies : List Tweet
  other : List Tweet
  deriving DecidableEq

/-- One iteration of the `for tweet in tweets` loop of `_categorize_tweets`.
`elif tweet.referenced_tweets:` is Python truthiness: both `None` and an
empty list fall through to `other`. -/
def catStep (main_author_id : Str) (cats : TweetCategories) (tweet : Tweet) :
    TweetCategories :=
  if tweet.author_id = main_author_id then
    { cats with main_thread := cats.main_thread ++ [tweet] }
  else
    match tweet.referenced_tweets with
    | some (r :: rs) =>
      let ref_types := ((r :: rs).map (·.rtype))
      if some (("quoted").toList) ∈ ref_types then
        { cats with quote_tweets := cats.quote_tweets ++ [tweet] }
      else if some (("replied_to").toList) ∈ ref_types then
        { cats with replies := cats.replies ++ [tweet] }
      else
        { cats with other := cats.other ++ [tweet] }
    | _ => { cats with other := cats.other ++ [tweet] }

/-- `_categorize_tweets`. -/
def categorize_tweets (tweets : List Tweet) (main_author_id : Str) :
    TweetCategories :=
  tweets.foldl (catStep main_author_id) ⟨[], [], [], []⟩

/-- The raise sites reachable from `extract_thread_optimized`.  Every one is
re-raised at the bottom of the function as
`Exception("Failed to extract thread: " + str(e))`: a single generic
exception type whose message identifies the original cause. -/
inductive ExtractFail where
  | invalidURL
  | monthlyLimit
  | httpStatus (status : Nat)
  | network
  | noData
  deriving DecidableEq

/-- `extract_thread_optimized` (also the body of the public `extract_thread`):
parse the thread id, run the pre-flight quota check, then issue exactly one
direct upstream request (not routed through `_make_api_request_with_retry`)
and parse the body.  Returns (outcome, final state, requests issued). -/
def extract_thread_optimized (st : SvcState) (url : Str)
    (resps : List MockResponse) :
    (Except ExtractFail ThreadData) × SvcState × Nat :=
  match extract_thread_id url with
  | .error _ => (.error .invalidURL, st, 0)
  | .ok thread_id =>
    if st.monthly_usage ≥ 95 then
      (.error .monthlyLimit, st, 0)
    else
      match resps.headD .netErr with
      | .httpErr status _ => (.error (.httpStatus status), st, 1)
      | .netErr => (.error .network, st, 1)
      | .ok remaining reset body =>
        let st2 := update_rate_limit_info st remaining reset
        match body.data with
        | none => (.error .noData, st2, 1)
        | some main_tweet_data =>
          let users := parse_users_from_includes body.includes
          let referenced_tweets := parse_referenced_tweets body.includes users
          let main_author := lookupKV users main_tweet_data.author_id
          let main_tweet : Tweet :=
            { id := main_tweet_data.id
              text := main_tweet_data.text
              author_id := main_tweet_data.author_id
              author_username :=
                (main_author.map (·.username)).getD (("unknown").toList)
              author_name := main_author.map (·.name)
              created_at := main_tweet_data.created_at
              referenced_tweets := main_tweet_data.referenced_tweets
              conversation_id := main_tweet_data.conversation_id }
          let all_tweets := main_tweet :: body.includes.tweets.map
            (fun rt =>
              let ref_author := lookupKV users rt.author_id
              { id := rt.id
                text := rt.text
                author_id := rt.author_id
                author_username :=
                  (ref_author.map (·.username)).getD (("unknown").toList)
                author_name := ref_author.map (·.name)
                created_at := rt.created_at
                referenced_tweets := rt.referenced_tweets
                conversation_id := rt.conversation_id })
          let categories := categorize_tweets all_tweets main_tweet.author_id
          (.ok
            { thread_id := thread_id
              tweets := all_tweets
              main_tweet := main_tweet
              reply_count := referenced_tweets.length
              users := users
              referenced_tweets := referenced_tweets
              quote_tweets := categories.quote_tweets
              reply_chain := categories.main_thread }, st2, 1)

/-- Run a sequence of extraction calls against one shared service state. -/
def runExtractions (st : SvcState) :
    List (Str × List MockResponse) → SvcState
  | [] => st
  | (url, resps) :: rest =>
    runExtractions (extract_thread_optimized st url resps).2.1 rest

end XApi

/-! ## C8: the partition computed by `_categorize_tweets` -/

namespace XApi

/-- The four partition labels. -/
inductive TCat where
  | main | quote | reply | other
  deriving DecidableEq

/-- The per-tweet classifier described by the specification: root author
first, then `quoted`, then `replied_to`, else `other` (a tweet with no
reference list contributes an empty type list). -/
def tweetCategory (main_author_id : Str) (t : Tweet) : TCat :=
  if t.author_id = main_author_id then .main
  else if some (("quoted").toList) ∈
      ((t.referenced_tweets.getD []).map (·.rtype)) then .quote
  else if some (("replied_to").toList) ∈
      ((t.referenced_tweets.getD []).map (·.rtype)) then .reply
  else .other

/-- Append a tweet to the bucket named by a label. -/
def catAdd (cats : TweetCategories) (t : Tweet) : TCat → TweetCategories
  | .main => { cats with main_thread := cats.main_thread ++ [t] }
  | .quote => { cats with quote_tweets := cats.quote_tweets ++ [t] }
  | .reply => { cats with replies := cats.replies ++ [t] }
  | .other => { cats with other := cats.other ++ [t] }

theorem catStep_eq (mid : Str) (cats : TweetCategories) (t : Tweet) :
    catStep mid cats t = catAdd cats t (tweetCategory mid t) := by
  unfold catStep catAdd tweetCategory
  by_cases h : t.author_id = mid
  · simp [h]
  · simp only [if_neg h]
    cases ht : t.referenced_tweets with
    | none => simp [ht]
    | some refs =>
      cases refs with
      | nil => simp [ht]
      | cons r rs =>
        simp only [ht, Option.getD_some]
        by_cases hq : some (("quoted").toList) ∈ ((r :: rs).map (·.rtype))
        · rw [if_pos hq, if_pos hq]
        · rw [if_neg hq, if_neg hq]
          by_cases hr : some (("replied_to").toList) ∈ ((r :: rs).map (·.rtype))
          · rw [if_pos hr, if_pos hr]
          · rw [if_neg hr, if_neg hr]

theorem categorize_go (mid : Str) :
    ∀ (ts : List Tweet) (cats : TweetCategories),
      ts.foldl (catStep mid) cats =
        { main_thread := cats.main_thread ++
            ts.filter (fun t => decide (tweetCategory mid t = .main))
          quote_tweets := cats.quote_tweets ++
            ts.filter (fun t => decide (tweetCategory mid t = .quote))
          replies := cats.replies ++
            ts.filter (fun t => decide (tweetCategory mid t = .reply))
          other := cats.other ++
            ts.filter (fun t => decide (tweetCategory mid t = .other)) } := by
  intro ts
  induction ts with
  | nil => intro cats; simp [List.foldl]
  | cons t ts ih =>
    intro cats
    rw [List.foldl_cons, catStep_eq, ih]
    cases hc : tweetCategory mid t <;>
      simp [catAdd, List.filter_cons, hc, List.append_assoc]

/-- C8: `_categorize_tweets` places every post into exactly one of the four
partitions: `main_thread` collects exactly the posts by the root author,
`quote_tweets` exactly the remaining posts whose reference list contains type
`quoted`, `replies` exactly the remaining ones containing `replied_to`, and
`other` everything else — in particular a post with no references that is not
by the root author.  The buckets are the filters of one total classifier, so
each post lands in exactly one of them. -/
theorem categorize_tweets_partitions (ts : List Tweet) (mid : Str) :
    ((categorize_tweets ts mid).main_thread =
        ts.filter (fun t => decide (tweetCategory mid t = .main))
      ∧ (categorize_tweets ts mid).quote_tweets =
        ts.filter (fun t => decide (tweetCategory mid t = .quote))
      ∧ (categorize_tweets ts mid).replies =
        ts.filter (fun t => decide (tweetCategory mid t = .reply))
      ∧ (categorize_tweets ts mid).other =
        ts.filter (fun t => decide (tweetCategory mid t = .other)))
    ∧ ∀ t : Tweet,
      ((tweetCategory mid t = .main ↔ t.author_id = mid)
      ∧ (tweetCategory mid t = .quote ↔ t.author_id ≠ mid ∧
          some (("quoted").toList) ∈
            ((t.referenced_tweets.getD []).map (·.rtype)))
      ∧ (tweetCategory mid t = .reply ↔ t.author_id ≠ mid ∧
          some (("quoted").toList) ∉
            ((t.referenced_tweets.getD []).map (·.rtype)) ∧
          some (("replied_to").toList) ∈
            ((t.referenced_tweets.getD []).map (·.rtype)))
      ∧ (tweetCategory mid t = .other ↔ t.author_id ≠ mid ∧
          some (("quoted").toList) ∉
            ((t.referenced_tweets.getD []).map (·.rtype)) ∧
          some (("replied_to").toList) ∉
            ((t.referenced_tweets.getD []).map (·.rtype)))) := by
  constructor
  · have h := categorize_go mid ts ⟨[], [], [], []⟩
    unfold categorize_tweets
    rw [h]
    exact ⟨by simp, by simp, by simp, by simp⟩
  · intro t
    unfold tweetCategory
    by_cases h : t.author_id = mid
    · rw [if_pos h]
      exact ⟨iff_of_true rfl h,
        iff_of_false (by decide) (fun hc => hc.1 h),
        iff_of_false (by decide) (fun hc => hc.1 h),
        iff_of_false (by decide) (fun hc => hc.1 h)⟩
    · rw [if_neg h]
      by_cases hq : some (("quoted").toList) ∈
          ((t.referenced_tweets.getD []).map (·.rtype))
      · rw [if_pos hq]
        exact ⟨iff_of_false (by decide) (fun hm => h hm),
          iff_of_true rfl ⟨h, hq⟩,
          iff_of_false (by decide) (fun hc => hc.2.1 hq),
          iff_of_false (by decide) (fun hc => hc.2.1 hq)⟩
      · rw [if_neg hq]
        by_cases hr : some (("replied_to").toList) ∈
            ((t.referenced_tweets.getD []).map (·.rtype))
        · rw [if_pos hr]
          exact ⟨iff_of_false (by decide) (fun hm => h hm),
            iff_of_false (by decide) (fun hc => hq hc.2),
            iff_of_true rfl ⟨h, hq, hr⟩,
            iff_of_false (by decide) (fun hc => hc.2.2 hr)⟩
        · rw [if_neg hr]
          exact ⟨iff_of_false (by decide) (fun hm => h hm),
            iff_of_false (by decide) (fun hc => hq hc.2),
            iff_of_false (by decide) (fun hc => hr hc.2.2),
            iff_of_true rfl ⟨h, hq, hr⟩⟩

theorem reSearch_of_matchAt {s g : Str} (h : reMatchAt s = some g) :
    reSearch s = some g := by
  cases s with
  | nil => rw [reMatchAt_nil] at h; cases h
  | cons c cs => simp [reSearch, h]

/-- C4: for every string of the form
`http(s)://(twitter.com|x.com)/<handle>/status/<id>` (optionally followed by
trailing text that does not extend the digit run), `extract_thread_id`
returns exactly the numeric id substring; and for every string the pattern
search rejects, `extract_thread_optimized` fails with the invalid-URL error
having issued zero upstream requests, leaving the service state unchanged. -/
theorem extract_thread_id_spec :
    (∀ scheme host handle tid suffix : Str,
      (scheme = ("http").toList ∨ scheme = ("https").toList) →
      (host = ("twitter.com").toList ∨ host = ("x.com").toList) →
      (∀ c ∈ handle, isWordChar c = true) → handle ≠ [] →
      (∀ c ∈ tid, Char.isDigit c = true) → tid ≠ [] →
      (∀ c, suffix.head? = some c → Char.isDigit c = false) →
      extract_thread_id (mkThreadUrl scheme host handle tid ++ suffix) = .ok tid)
    ∧ (∀ (url : Str) (st : SvcState) (resps : List MockResponse),
      reSearch url = none →
      extract_thread_optimized st url resps = (.error .invalidURL, st, 0)) := by
  constructor
  · intro scheme host handle tid suffix hs hh hhandle hne htid htidne hsuf
    have hm := reMatchAt_mkUrl scheme host handle tid suffix hs hh hhandle hne
      htid htidne hsuf
    unfold extract_thread_id
    rw [reSearch_of_matchAt hm]
  · intro url st resps h
    unfold extract_thread_optimized extract_thread_id
    rw [h]

/-- Witness for C4 at concrete inputs. -/
theorem extract_thread_id_spec_witness :
    extract_thread_id
        (mkThreadUrl (("https").toList) (("x.com").toList)
          (("alice").toList) (("42").toList) ++ [])
      = .ok (("42").toList)
    ∧ extract_thread_optimized initState (("https://example.com/alice/status/42").toList) []
      = (.error .invalidURL, initState, 0) :=
  ⟨extract_thread_id_spec.1 (("https").toList) (("x.com").toList)
      (("alice").toList) (("42").toList) [] (Or.inr rfl) (Or.inr rfl)
      (by decide) (by decide) (by decide) (by decide) (by decide),
    extract_thread_id_spec.2 (("https://example.com/alice/status/42").toList)
      initState [] (by decide)⟩

/-- C10: `extract_thread_id` searches for the pattern anywhere in the input,
so any string embedding a well-formed thread URL after an arbitrary prefix is
accepted; concretely, prose before the URL still yields the id, and with two
URLs present the id of the first (leftmost) occurrence is returned. -/
theorem extract_thread_id_substring_spec :
    (∀ (pre scheme host handle tid : Str),
      (scheme = ("http").toList ∨ scheme = ("https").toList) →
      (host = ("twitter.com").toList ∨ host = ("x.com").toList) →
      (∀ c ∈ handle, isWordChar c = true) → handle ≠ [] →
      (∀ c ∈ tid, Char.isDigit c = true) → tid ≠ [] →
      (extract_thread_id (pre ++ mkThreadUrl scheme host handle tid)).isOk = true)
    ∧ extract_thread_id (("Check this out: https://x.com/alice/status/42").toList)
      = .ok (("42").toList)
    ∧ extract_thread_id
        (("https://x.com/a/status/1 and https://x.com/b/status/2").toList)
      = .ok (("1").toList) := by
  refine ⟨?_, by decide, by decide⟩
  intro pre scheme host handle tid hs hh hhandle hne htid htidne
  have hm : reMatchAt (mkThreadUrl scheme host handle tid ++ []) = some tid :=
    reMatchAt_mkUrl scheme host handle tid [] hs hh hhandle hne htid htidne
      (by intro c hc; cases hc)
  rw [List.append_nil] at hm
  have hsearch := reSearch_isSome_of_suffix pre _ tid hm
  unfold extract_thread_id
  cases hs2 : reSearch (pre ++ mkThreadUrl scheme host handle tid) with
  | some g => rfl
  | none => rw [hs2] at hsearch; cases hsearch

/-- Witness for C10 at a concrete input with a non-empty prefix. -/
theorem extract_thread_id_substring_spec_witness :
    (extract_thread_id ((("see ").toList) ++
        mkThreadUrl (("http").toList) (("twitter.com").toList)
          (("bob_1").toList) (("9001").toList))).isOk = true :=
  extract_thread_id_substring_spec.1 (("see ").toList) (("http").toList)
    (("twitter.com").toList) (("bob_1").toList) (("9001").toList)
    (Or.inl rfl) (Or.inl rfl) (by decide) (by decide) (by decide) (by decide)

/-! ## C1, C2, C6: retry policy, quota accounting, 404 handling -/

/-- `True` exactly for a 2xx mocked response. -/
def MockResponse.isSuccess : MockResponse → Bool
  | .ok _ _ _ => true
  | _ => false

theorem range_maxRetries : List.range maxRetries = [0, 1, 2] := by decide

theorem retry_429_twice_then_ok (st : SvcState) (h : st.monthly_usage < 95)
    (ra1 ra2 rem rst : Option Nat) (body : ApiBody) :
    make_api_request_with_retry st
        [.httpErr 429 ra1, .httpErr 429 ra2, .ok rem rst body]
      = (.ok body, update_rate_limit_info st rem rst, 3,
          [ra1.getD 60, ra2.getD 60]) := by
  have hlt : ¬ st.monthly_usage ≥ 95 := by omega
  rw [make_api_request_with_retry, range_maxRetries]
  simp [requestLoop, maxRetries, hlt]

theorem retry_429_always (st : SvcState) (h : st.monthly_usage < 95)
    (ra1 ra2 ra3 : Option Nat) :
    make_api_request_with_retry st
        [.httpErr 429 ra1, .httpErr 429 ra2, .httpErr 429 ra3]
      = (.error .rateLimited, st, 3, [ra1.getD 60, ra2.getD 60]) := by
  have hlt : ¬ st.monthly_usage ≥ 95 := by omega
  rw [make_api_request_with_retry, range_maxRetries]
  simp [requestLoop, maxRetries, hlt]

theorem retry_net_backoff (st : SvcState) (h : st.monthly_usage < 95) :
    make_api_request_with_retry st [.netErr, .netErr, .netErr]
      = (.error .network, st, 3, [1, 2]) := by
  have hlt : ¬ st.monthly_usage ≥ 95 := by omega
  rw [make_api_request_with_retry, range_maxRetries]
  simp [requestLoop, maxRetries, hlt]

theorem extract_single_request (st : SvcState) (url : Str)
    (resps : List MockResponse) :
    (extract_thread_optimized st url resps).2.2 ≤ 1 := by
  unfold extract_thread_optimized
  cases hu : extract_thread_id url with
  | error e => simp
  | ok tid =>
    by_cases hq : st.monthly_usage ≥ 95
    · simp [hq]
    · simp only [if_neg hq]
      cases hr : resps.headD .netErr with
      | httpErr s ra => simp
      | netErr => simp
      | ok rem rst body =>
        cases hd : body.data with
        | none => simp [hd]
        | some td => simp [hd]

/-- C1 (corrected claim): the 429/retry-after/backoff retry policy is
implemented by `_make_api_request_with_retry` (the request path used by
`get_tweet_by_id` and `get_thread_replies`): a mock returning 429 twice and
then 200 succeeds with a total attempt count of 3, sleeping each
`retry-after` value (60 s when the header is absent); a mock that always
returns 429 fails with the rate-limited error after exactly 3 attempts; and
non-429 transient (transport) failures are retried with exponential backoff
(1 s, then 2 s).  The public extraction operation `extract_thread_optimized`,
however, issues at most one direct upstream request and never retries. -/
theorem retry_policy_spec :
    (∀ st : SvcState, st.monthly_usage < 95 →
      ∀ (ra1 ra2 rem rst : Option Nat) (body : ApiBody),
      make_api_request_with_retry st
          [.httpErr 429 ra1, .httpErr 429 ra2, .ok rem rst body]
        = (.ok body, update_rate_limit_info st rem rst, 3,
            [ra1.getD 60, ra2.getD 60]))
    ∧ (∀ st : SvcState, st.monthly_usage < 95 → ∀ ra1 ra2 ra3 : Option Nat,
      make_api_request_with_retry st
          [.httpErr 429 ra1, .httpErr 429 ra2, .httpErr 429 ra3]
        = (.error .rateLimited, st, 3, [ra1.getD 60, ra2.getD 60]))
    ∧ (∀ st : SvcState, st.monthly_usage < 95 →
      make_api_request_with_retry st [.netErr, .netErr, .netErr]
        = (.error .network, st, 3, [1, 2]))
    ∧ (∀ (st : SvcState) (url : Str) (resps : List MockResponse),
      (extract_thread_optimized st url resps).2.2 ≤ 1) :=
  ⟨fun st h ra1 ra2 rem rst body => retry_429_twice_then_ok st h ra1 ra2 rem rst body,
    fun st h ra1 ra2 ra3 => retry_429_always st h ra1 ra2 ra3,
    fun st h => retry_net_backoff st h,
    fun st url resps => extract_single_request st url resps⟩

/-- Witness for C1 (corrected) at concrete inputs. -/
theorem retry_policy_spec_witness :
    make_api_request_with_retry initState
        [.httpErr 429 none, .httpErr 429 (some 5), .ok none none ⟨none, ⟨[], []⟩⟩]
      = (.ok ⟨none, ⟨[], []⟩⟩, update_rate_limit_info initState none none, 3, [60, 5])
    ∧ make_api_request_with_retry initState
        [.httpErr 429 none, .httpErr 429 none, .httpErr 429 none]
      = (.error .rateLimited, initState, 3, [60, 60])
    ∧ make_api_request_with_retry initState [.netErr, .netErr, .netErr]
      = (.error .network, initState, 3, [1, 2])
    ∧ (extract_thread_optimized initState (("https://x.com/a/status/1").toList)
        [.httpErr 429 (some 1)]).2.2 ≤ 1 := by
  refine ⟨?_, ?_, ?_, ?_⟩
  · simpa using retry_policy_spec.1 initState (by decide) none (some 5) none none
      ⟨none, ⟨[], []⟩⟩
  · simpa using retry_policy_spec.2.1 initState (by decide) none none none
  · exact retry_policy_spec.2.2.1 initState (by decide)
  · exact retry_policy_spec.2.2.2 initState (("https://x.com/a/status/1").toList)
      [.httpErr 429 (some 1)]

/-- Counterexample to C1 as stated: the public extraction operation does
not route through the retrying helper — with a mocked upstream answering
429, 429, 200 it fails at once with the first 429 after a single request
(the claim asserts success with a total attempt count of 3). -/
theorem extract_no_retry_counterexample :
    extract_thread_optimized initState (("https://x.com/a/status/1").toList)
        [.httpErr 429 (some 1), .httpErr 429 (some 1), .ok none none ⟨none, ⟨[], []⟩⟩]
      = (.error (.httpStatus 429), initState, 1) := by
  decide

theorem extract_usage_step (st : SvcState) (url : Str)
    (resps : List MockResponse) :
    (extract_thread_optimized st url resps).2.1.monthly_usage =
      st.monthly_usage +
        (if (extract_thread_id url).isOk = true ∧ st.monthly_usage < 95 ∧
            (resps.headD .netErr).isSuccess = true then 1 else 0) := by
  unfold extract_thread_optimized
  cases hu : extract_thread_id url with
  | error e => simp [hu, Except.isOk, Except.toBool]
  | ok tid =>
    by_cases hq : st.monthly_usage ≥ 95
    · have : ¬ st.monthly_usage < 95 := by omega
      simp [hq, this]
    · have hlt : st.monthly_usage < 95 := by omega
      simp only [if_neg hq]
      cases hr : resps.headD .netErr with
      | httpErr s ra => simp [hr, hu, hlt, MockResponse.isSuccess]
      | netErr => simp [hr, hu, hlt, MockResponse.isSuccess]
      | ok rem rst body =>
        cases hd : body.data with
        | none => simp [hd, hr, hu, hlt, MockResponse.isSuccess,
            update_rate_limit_info, Except.isOk, Except.toBool]
        | some td => simp [hd, hr, hu, hlt, MockResponse.isSuccess,
            update_rate_limit_info, Except.isOk, Except.toBool]

theorem runExtractions_usage :
    ∀ (inputs : List (Str × List MockResponse)) (st : SvcState),
      (∀ p ∈ inputs, (extract_thread_id p.1).isOk = true ∧
        (p.2.headD .netErr).isSuccess = true) →
      st.monthly_usage + inputs.length ≤ 95 →
      (runExtractions st inputs).monthly_usage =
        st.monthly_usage + inputs.length := by
  intro inputs
  induction inputs with
  | nil => intro st _ _; rfl
  | cons p rest ih =>
    intro st h hlen
    have hp := h p (by simp)
    have hstep := extract_usage_step st p.1 p.2
    rw [if_pos ⟨hp.1, by simp at hlen; omega, hp.2⟩] at hstep
    show (runExtractions (extract_thread_optimized st p.1 p.2).2.1 rest).monthly_usage = _
    rw [ih _ (fun q hq => h q (by simp [hq])) (by rw [hstep]; simp at hlen ⊢; omega)]
    rw [hstep]
    simp
    omega

/-- C2: the monthly quota counter counts exactly the completed successful
upstream calls — one extraction call increments it by 1 exactly when the URL
parses, the pre-flight check passes and the upstream answers 2xx, so after N
successful extraction calls it equals N — and whenever the counter has
reached 95, the next extraction call fails with the quota-exceeded error in
the pre-flight check, with zero upstream requests issued. -/
theorem monthly_quota_spec :
    (∀ (st : SvcState) (url : Str) (resps : List MockResponse),
      (extract_thread_optimized st url resps).2.1.monthly_usage =
        st.monthly_usage +
          (if (extract_thread_id url).isOk = true ∧ st.monthly_usage < 95 ∧
              (resps.headD .netErr).isSuccess = true then 1 else 0))
    ∧ (∀ (inputs : List (Str × List MockResponse)) (st : SvcState),
      (∀ p ∈ inputs, (extract_thread_id p.1).isOk = true ∧
        (p.2.headD .netErr).isSuccess = true) →
      st.monthly_usage = 0 → inputs.length ≤ 95 →
      (runExtractions st inputs).monthly_usage = inputs.length)
    ∧ (∀ (st : SvcState) (url : Str) (resps : List MockResponse) (tid : Str),
      extract_thread_id url = .ok tid → st.monthly_usage ≥ 95 →
      extract_thread_optimized st url resps = (.error .monthlyLimit, st, 0)) := by
  refine ⟨extract_usage_step, ?_, ?_⟩
  · intro inputs st h h0 hlen
    have := runExtractions_usage inputs st h (by omega)
    omega
  · intro st url resps tid hu hq
    unfold extract_thread_optimized
    rw [hu]
    simp [hq]

/-- Witness for C2: two successful mocked extractions starting from the
fresh state leave the counter at 2; a state at the 95-call ceiling fails
pre-flight with no request. -/
theorem monthly_quota_spec_witness :
    (runExtractions initState
        [((("https://x.com/a/status/1").toList), [.ok none none ⟨none, ⟨[], []⟩⟩]),
          ((("https://x.com/a/status/1").toList), [.ok none none ⟨none, ⟨[], []⟩⟩])]).monthly_usage = 2
    ∧ extract_thread_optimized ⟨10, 0, 95⟩ (("https://x.com/a/status/1").toList)
        [.ok none none ⟨none, ⟨[], []⟩⟩] = (.error .monthlyLimit, ⟨10, 0, 95⟩, 0) := by
  constructor
  · exact monthly_quota_spec.2.1 _ initState (by decide) rfl (by decide)
  · exact monthly_quota_spec.2.2 ⟨10, 0, 95⟩ _ _ (("1").toList) (by decide) (by decide)

/-- C6: when the upstream answers 404 for the requested post,
`get_tweet_by_id` yields the not-found outcome `None` — an `ok` result,
distinct from every other failure kind, all of which surface as errors —
after exactly one upstream request (the 404 is not retried by
`_make_api_request_with_retry`, which retries only 429s and transport
failures). -/
theorem notfound_spec :
    (∀ st : SvcState, st.monthly_usage < 95 → ∀ ra : Option Nat,
      get_tweet_by_id st [.httpErr 404 ra] = (.ok none, st, 1))
    ∧ (∀ st : SvcState, st.monthly_usage < 95 →
      ∀ (s : Nat) (ra : Option Nat), s ≠ 404 → s ≠ 429 →
      get_tweet_by_id st [.httpErr s ra] = (.error (.httpFailure s), st, 1))
    ∧ (∀ st : SvcState, st.monthly_usage < 95 → ∀ ra1 ra2 ra3 : Option Nat,
      get_tweet_by_id st [.httpErr 429 ra1, .httpErr 429 ra2, .httpErr 429 ra3]
        = (.error (.wrapped .rateLimited), st, 3))
    ∧ (∀ st : SvcState, st.monthly_usage < 95 →
      get_tweet_by_id st [.netErr, .netErr, .netErr]
        = (.error (.wrapped .network), st, 3)) := by
  have hloop : ∀ (st : SvcState), ¬ st.monthly_usage ≥ 95 →
      ∀ (s : Nat) (ra : Option Nat), s ≠ 429 →
      make_api_request_with_retry st [.httpErr s ra]
        = (.error (.httpStatus s), st, 1, []) := by
    intro st hlt s ra hs
    rw [make_api_request_with_retry, range_maxRetries]
    simp [requestLoop, maxRetries, hlt, hs]
  refine ⟨?_, ?_, ?_, ?_⟩
  · intro st h ra
    have hlt : ¬ st.monthly_usage ≥ 95 := by omega
    unfold get_tweet_by_id
    rw [hloop st hlt 404 ra (by omega)]
    rfl
  · intro st h s ra h404 h429
    have hlt : ¬ st.monthly_usage ≥ 95 := by omega
    unfold get_tweet_by_id
    rw [hloop st hlt s ra h429]
    simp [h404]
  · intro st h ra1 ra2 ra3
    have hlt : ¬ st.monthly_usage ≥ 95 := by omega
    unfold get_tweet_by_id
    rw [show make_api_request_with_retry st
        [.httpErr 429 ra1, .httpErr 429 ra2, .httpErr 429 ra3]
      = (.error .rateLimited, st, 3, [ra1.getD 60, ra2.getD 60]) from
        retry_429_always st h ra1 ra2 ra3]
  · intro st h
    have hlt : ¬ st.monthly_usage ≥ 95 := by omega
    unfold get_tweet_by_id
    rw [retry_net_backoff st h]

/-- Witness for C6 at concrete inputs (the other statuses exercised: 500,
429-exhaustion and transport failure all yield errors, unlike 404). -/
theorem notfound_spec_witness :
    get_tweet_by_id initState [.httpErr 404 none] = (.ok none, initState, 1)
    ∧ get_tweet_by_id initState [.httpErr 500 none]
      = (.error (.httpFailure 500), initState, 1)
    ∧ get_tweet_by_id initState
        [.httpErr 429 none, .httpErr 429 none, .httpErr 429 none]
      = (.error (.wrapped .rateLimited), initState, 3)
    ∧ get_tweet_by_id initState [.netErr, .netErr, .netErr]
      = (.error (.wrapped .network), initState, 3) :=
  ⟨notfound_spec.1 initState (by decide) none,
    notfound_spec.2.1 initState (by decide) 500 none (by decide) (by decide),
    notfound_spec.2.2.1 initState (by decide) none none none,
    notfound_spec.2.2.2 initState (by decide)⟩

end XApi

/-! ## JSON values and a model of `json.loads`

`Json` models the values produced by `json.loads`; objects are association
lists in insertion order with last-wins duplicate handling, as Python dicts
behave.  `jloads` is a fuel-bounded recursive-descent model of `json.loads`
covering the JSON subset the service exchanges (objects, arrays, strings
with simple escapes, decimal numbers, `true`/`false`/`null`); numbers are
rationals. -/

namespace Grok

open XApi (insertKV lookupKV)

inductive Json where
  | null
  | bool (b : Bool)
  | num (q : Rat)
  | str (s : Str)
  | arr (elems : List Json)
  | obj (fields : List (Str × Json))

/-- JSON whitespace. -/
def jskipWs (s : Str) : Str :=
  s.dropWhile (fun c => c = ' ' || c = '\t' || c = '\n' || c = '\r')

/-- Parse the body of a string literal after the opening quote. -/
def jstrBody : Str → Option (Str × Str)
  | [] => none
  | '"' :: rest => some ([], rest)
  | '\\' :: c :: rest =>
    (jstrBody rest).map (fun p => ((if c = 'n' then '\n' else c) :: p.1, p.2))
  | c :: rest => (jstrBody rest).map (fun p => (c :: p.1, p.2))

/-- Digits to a natural number. -/
def digitsToNat (ds : Str) : Nat :=
  ds.foldl (fun n c => n * 10 + (c.toNat - ('0').toNat)) 0

/-- Parse a decimal number (optional minus, optional fraction). -/
def jnum (s : Str) : Option (Json × Str) :=
  let p := match s with
    | '-' :: r => (true, r)
    | _ => (false, s)
  let intPart := p.2.takeWhile Char.isDigit
  if intPart.isEmpty then none else
  let r1 := p.2.dropWhile Char.isDigit
  match r1 with
  | '.' :: r2 =>
    let frac := r2.takeWhile Char.isDigit
    if frac.isEmpty then none else
    let r3 := r2.dropWhile Char.isDigit
    let q : Rat := (digitsToNat intPart : Rat) +
      (digitsToNat frac : Rat) / ((10 : Rat) ^ frac.length)
    some (.num (if p.1 then -q else q), r3)
  | _ => some (.num (if p.1 then -(digitsToNat intPart : Rat)
      else (digitsToNat intPart : Rat)), r1)

mutual

def jval : Nat → Str → Option (Json × Str)
  | 0, _ => none
  | fuel + 1, s =>
    match jskipWs s with
    | '{' :: rest =>
      (match jskipWs rest with
        | '}' :: r2 => some (.obj [], r2)
        | _ => jmembers fuel rest [])
    | '[' :: rest =>
      (match jskipWs rest with
        | ']' :: r2 => some (.arr [], r2)
        | _ => jelems fuel rest [])
    | '"' :: rest => (jstrBody rest).map (fun p => (.str p.1, p.2))
    | 't' :: rest => (dropPre? (("rue").toList) rest).map (fun r => (.bool true, r))
    | 'f' :: rest => (dropPre? (("alse").toList) rest).map (fun r => (.bool false, r))
    | 'n' :: rest => (dropPre? (("ull").toList) rest).map (fun r => (.null, r))
    | s2 => jnum s2

def jmembers : Nat → Str → List (Str × Json) → Option (Json × Str)
  | 0, _, _ => none
  | fuel + 1, s, acc =>
    match jskipWs s with
    | '"' :: rest =>
      (match jstrBody rest with
        | none => none
        | some (key, r1) =>
          match jskipWs r1 with
          | ':' :: r2 =>
            (match jval fuel r2 with
              | none => none
              | some (v, r3) =>
                match jskipWs r3 with
                | ',' :: r4 => jmembers fuel r4 (insertKV acc key v)
                | '}' :: r4 => some (.obj (insertKV acc key v), r4)
                | _ => none)
          | _ => none)
    | _ => none

def jelems : Nat → Str → List Json → Option (Json × Str)
  | 0, _, _ => none
  | fuel + 1, s, acc =>
    match jval fuel s with
    | none => none
    | some (v, r1) =>
      match jskipWs r1 with
      | ',' :: r2 => jelems fuel r2 (acc ++ [v])
      | ']' :: r2 => some (.arr (acc ++ [v]), r2)
      | _ => none

end

/-- Model of `json.loads`: parse a complete document. -/
def jloads (s : Str) : Option Json :=
  match jval (s.length + 1) s with
  | some (v, rest) => if (jskipWs rest).isEmpty then some v else none
  | none => none

/-- `d.get(k)` on a parsed value (`none` when not a dict or key absent). -/
def jget : Json → Str → Option Json
  | .obj kvs, k => lookupKV kvs k
  | _, _ => none

/-- The Python `in` operator on a parsed value: key containment for dicts,
element containment for lists, substring containment for strings. -/
def pyIn (j : Json) (k : Str) : Bool :=
  match j with
  | .obj kvs => (lookupKV kvs k).isSome
  | .arr xs => xs.any (fun x => match x with | .str s => s = k | _ => false)
  | .str s => decide (k <:+: s)
  | _ => false

end Grok

/-! ## `grok_service.py`: schemas and response parsing -/

namespace Grok

open XApi (insertKV lookupKV ThreadData Tweet)

/-- `schemas.ViewpointSide`. -/
structure ViewpointSide where
  title : Str
  points : List Str
  username : Option Str
  deriving DecidableEq

/-- `schemas.LiveSearchResult`. -/
structure LiveSearchResult where
  title : Str
  url : Str
  snippet : Str
  relevance_score : Option Rat
  deriving DecidableEq

/-- `schemas.ConsensusResponse`.  The free-form `metadata` dict holds parsed
JSON values. -/
structure ConsensusResponse where
  sideA : ViewpointSide
  sideB : ViewpointSide
  consensus : List Str
  success : Bool
  error : Option Str
  metadata : List (Str × Json)
  peace_meme_url : Option Str
  meme_prompt : Option Str
  live_search_results : List LiveSearchResult
  enhanced_context : Option Str
  confidence_score : Option Rat
  processing_time : Option Rat

/-- The raise sites of `parse_grok_response`.  Python wraps each in a generic
`Exception` whose message identifies the site (`"Failed to parse Grok
response as JSON"`, `"Failed to parse analysis results: ..."`,
`"Invalid response format: missing ..."`). -/
inductive ParseErr where
  | noJsonFound
  | jsonDecodeError
  | missingRequiredField (f : Str)
  | missingKey (f : Str)
  | typeError
  | validationError
  deriving DecidableEq

/-- Pydantic coercion into a `str` field.  Only JSON strings are accepted;
the service prompts request string fields, and non-string scalars are
modelled as validation failures. -/
def coerceStr : Json → Except ParseErr Str
  | .str s => .ok s
  | _ => .error .validationError

/-- Pydantic coercion into a `List[str]` field. -/
def coerceStrList (j : Json) : Except ParseErr (List Str) :=
  match j with
  | .arr xs => xs.mapM coerceStr
  | _ => .error .validationError

/-- Pydantic coercion into an `Optional[str]` field. -/
def coerceOptStr : Option Json → Except ParseErr (Option Str)
  | none => .ok none
  | some .null => .ok none
  | some j => (coerceStr j).map some

/-- Pydantic coercion into an `Optional[float]` field. -/
def coerceOptFloat : Json → Except ParseErr (Option Rat)
  | .num q => .ok (some q)
  | .null => .ok none
  | _ => .error .validationError

/-- Python `d[k]` on a parsed value: `KeyError` when the key is absent,
`TypeError` when the value is not a dict. -/
def getItem (j : Json) (k : Str) : Except ParseErr Json :=
  match j with
  | .obj kvs =>
    (match lookupKV kvs k with
      | some v => .ok v
      | none => .error (.missingKey k))
  | _ => .error .typeError

/-- Python `len` on a parsed value. -/
def pyLen : Json → Except ParseErr Nat
  | .arr xs => .ok xs.length
  | .str s => .ok s.length
  | .obj kvs => .ok kvs.length
  | _ => .error .typeError

/-- Build one `ViewpointSide` the way `parse_grok_response` does:
`side["title"]`, `side["points"]`, `side.get("username")`, then pydantic
validation. -/
def buildSide (sideJ : Json) : Except ParseErr ViewpointSide :=
  match getItem sideJ (("title").toList) with
  | .error e => .error e
  | .ok titleJ =>
  match getItem sideJ (("points").toList) with
  | .error e => .error e
  | .ok pointsJ =>
  match coerceStr titleJ with
  | .error e => .error e
  | .ok title =>
  match coerceStrList pointsJ with
  | .error e => .error e
  | .ok points =>
  match coerceOptStr (jget sideJ (("username").toList)) with
  | .error e => .error e
  | .ok username => .ok { title := title, points := points, username := username }

/-- The strip of a Markdown code fence in `parse_grok_response`: drop a
leading ` ```json ` (7 characters) and a trailing ` ``` ` when present. -/
def grok_strip_fence (s : Str) : Str :=
  let c1 := if startsWithL s (("```json").toList) then s.drop 7 else s
  if endsWithL c1 (("```").toList) then dropRightL c1 3 else c1

/-- The brace heuristic of `parse_grok_response`: take the substring from
the first `{` to the last `}` (`ValueError("No JSON found in response")`
when there is no `{`; note that `end_idx = rfind + 1` can never be `-1`, so
an input with a `{` but no `}` yields the empty slice). -/
def grok_find_json (c2 : Str) : Except ParseErr Str :=
  let start_idx := pyFindC c2 '{'
  let end_idx := pyRfindC c2 '}' + 1
  if start_idx ≠ -1 ∧ end_idx ≠ -1 then .ok (pySlice c2 start_idx end_idx)
  else .error .noJsonFound

/-- The preprocessing pipeline of `parse_grok_response`: `strip()`, fence
removal, brace isolation. -/
def grok_isolate_json (response_content : Str) : Except ParseErr Str :=
  grok_find_json (grok_strip_fence (pyStrip response_content))

/-- The required-field validation and response construction of
`parse_grok_response`, applied to the decoded JSON value. -/
def parse_validate (data : Json) : Except ParseErr ConsensusResponse :=
  if pyIn data (("sideA").toList) = false then
    .error (.missingRequiredField (("sideA").toList))
  else if pyIn data (("sideB").toList) = false then
    .error (.missingRequiredField (("sideB").toList))
  else if pyIn data (("consensus").toList) = false then
    .error (.missingRequiredField (("consensus").toList))
  else
    match getItem data (("sideA").toList) with
    | .error e => .error e
    | .ok sideAJ =>
    match buildSide sideAJ with
    | .error e => .error e
    | .ok side_a =>
    match getItem data (("sideB").toList) with
    | .error e => .error e
    | .ok sideBJ =>
    match buildSide sideBJ with
    | .error e => .error e
    | .ok side_b =>
    match getItem data (("consensus").toList) with
    | .error e => .error e
    | .ok consensusJ =>
    match coerceStrList consensusJ with
    | .error e => .error e
    | .ok consensus =>
    match coerceOptFloat
        ((jget data (("confidence_score").toList)).getD (.num ((8 : Rat) / 10))) with
    | .error e => .error e
    | .ok confidence_score =>
    match pyLen ((jget data (("tweets_analyzed").toList)).getD (.arr [])) with
    | .error e => .error e
    | .ok tweet_count =>
      .ok { sideA := side_a
            sideB := side_b
            consensus := consensus
            success := true
            error := none
            metadata :=
              [((("analysis_method").toList), .str (("grok-3-mini").toList)),
                ((("tweet_count").toList), .num (tweet_count : Rat)),
                ((("meme_suggestion").toList),
                  (jget data (("meme_prompt_suggestion").toList)).getD (.str []))]
            peace_meme_url := none
            meme_prompt := none
            live_search_results := []
            enhanced_context := none
            confidence_score := confidence_score
            processing_time := none }

/-- `parse_grok_response`. -/
def parse_grok_response (response_content : Str) :
    Except ParseErr ConsensusResponse :=
  match grok_isolate_json response_content with
  | .error e => .error e
  | .ok json_str =>
    match jloads json_str with
    | none => .error .jsonDecodeError
    | some data => parse_validate data

end Grok

namespace Grok

open XApi (insertKV lookupKV ThreadData Tweet)

/-- `str(n)` for the prompt interpolations. -/
def natToStr (n : Nat) : Str := (toString n).toList

/-- The mock fallback list built inside `grok_live_search` when JSON
decoding of the model output fails. -/
def demoResults (query : Str) : List LiveSearchResult :=
  [{ title := ("Live Search Result (Demo)").toList
     url := ("https://example.com").toList
     snippet := ("Search results for: ").toList ++ query
     relevance_score := some ((8 : Rat) / 10) }]

/-- One iteration of the `for result in ...` loop of `grok_live_search`:
`result.get` with defaults, then pydantic validation of `LiveSearchResult`
(`relevance_score` defaults to 0.5).  A non-dict element raises, which the
inner `except (json.JSONDecodeError, KeyError)` does not catch. -/
def searchResultOfJson (j : Json) : Except Unit LiveSearchResult :=
  match j with
  | .obj kvs =>
    let titleJ := (lookupKV kvs (("title").toList)).getD (.str [])
    let urlJ := (lookupKV kvs (("url").toList)).getD (.str [])
    let snippetJ := (lookupKV kvs (("snippet").toList)).getD (.str [])
    let relJ := (lookupKV kvs (("relevance_score").toList)).getD
      (.num ((5 : Rat) / 10))
    (match titleJ, urlJ, snippetJ, relJ with
      | .str t, .str u, .str sn, .num q =>
        .ok { title := t, url := u, snippet := sn, relevance_score := some q }
      | .str t, .str u, .str sn, .null =>
        .ok { title := t, url := u, snippet := sn, relevance_score := none }
      | _, _, _, _ => .error ())
  | _ => .error ()

/-- The search prompt built by `grok_live_search`. -/
def live_search_prompt (query : Str) (max_results : Nat) : Str :=
  ("\nYou have access to real-time web search. Please search for current information about: ").toList
  ++ query
  ++ ("\n\nProvide a JSON response with search results in this format:\n\x7b\n    \"results\": [\n        \x7b\n            \"title\": \"Article/page title\",\n            \"url\": \"https://example.com\",\n            \"snippet\": \"Brief description of the content\",\n            \"relevance_score\": 0.9\n        \x7d\n    ]\n\x7d\n\nLimit to ").toList
  ++ natToStr max_results
  ++ (" most relevant results. Focus on recent, authoritative sources.\n").toList

/-- The parsing half of `grok_live_search` applied to the content string
(`start_idx`/`end_idx` inlined): isolate the first-`\x7b`-to-last-`\x7d`
substring, decode it, and build the result list; a decode failure yields the
demo placeholder list, and no `\x7b` leaves the result list empty. -/
def grok_live_search_body (query : Str) (max_results : Nat) (content : Str) :
    Except Unit (List LiveSearchResult) :=
  if pyFindC content '{' ≠ -1 ∧ pyRfindC content '}' + 1 ≠ -1 then
    match jloads (pySlice content (pyFindC content '{')
        (pyRfindC content '}' + 1)) with
    | none => .ok (demoResults query)
    | some search_data =>
      (match search_data with
        | .obj kvs =>
          (match (lookupKV kvs (("results").toList)).getD (.arr []) with
            | .arr items => (items.take max_results).mapM searchResultOfJson
            | _ => .error ())
        | _ => .error ())
  else .ok []

/-- The body of `grok_live_search` up to (but not including) the outer
`except Exception` handler: `call` is the mocked upstream interaction
producing `choices[0].message.content` (an `error` covers every failure of
the POST, of `raise_for_status`, or of the content extraction). -/
def grok_live_search_inner (query : Str) (max_results : Nat)
    (call : Except Unit Str) : Except Unit (List LiveSearchResult) :=
  match call with
  | .error e => .error e
  | .ok content => grok_live_search_body query max_results content

/-- `grok_live_search`: the outer `except Exception` turns every escaped
failure into an empty result list, so the step never raises. -/
def grok_live_search (query : Str) (max_results : Nat)
    (call : Except Unit Str) : List LiveSearchResult :=
  match grok_live_search_inner query max_results call with
  | .ok results => results
  | .error _ => []

/-! ### `generate_peace_meme` -/

def memeP1 : Str := ("Create a peaceful meme celebrating common ground. ").toList
def memeP2 : Str := ("finding agreement on: ").toList
def memeP3 : Str := (". Style: Modern, clean, positive. Elements: Handshake, bridge, or unity symbols. Text: \"Finding Common Ground\". Avoid controversy.").toList
def memeF1 : Str := ("Peace meme: ").toList
def memeF2 : Str := ("agreeing on ").toList
def memeF3 : Str := (". Clean, positive style with unity symbols.").toList

/-- Python truthiness of an optional string. -/
def truthyOpt : Option Str → Bool
  | some (_ :: _) => true
  | _ => false

/-- The `personas` fragment: present only when both usernames are truthy. -/
def meme_personas (side_a_username side_b_username : Option Str) : Str :=
  if truthyOpt side_a_username && truthyOpt side_b_username then
    ("Show @").toList ++ side_a_username.getD [] ++ (" and @").toList ++
      side_b_username.getD [] ++
      (" as cartoon characters or caricatures ").toList
  else []

/-- `', '.join(consensus_points[:2])`. -/
def meme_shared_values (consensus_points : List Str) : Str :=
  joinSep ((", ").toList) (consensus_points.take 2)

/-- The primary meme prompt template. -/
def meme_primary (consensus_points : List Str) (a b : Option Str) : Str :=
  memeP1 ++ meme_personas a b ++ memeP2 ++
    meme_shared_values consensus_points ++ memeP3

/-- The prompt after the 1024-character check of `generate_peace_meme`
(`grok_service.py` lines 265-266): the shorter fallback template (which
truncates `consensus_points[0]` to 50 characters but embeds the personas
fragment unshortened, and is itself never length-checked) replaces an
over-long primary prompt; `consensus_points[0]` raises `IndexError` when
the list is empty. -/
def meme_prompt_built (consensus_points : List Str) (a b : Option Str) :
    Option Str :=
  let meme_prompt := meme_primary consensus_points a b
  if meme_prompt.length > 1024 then
    match consensus_points with
    | [] => none
    | c0 :: _ =>
      some (memeF1 ++ meme_personas a b ++ memeF2 ++ c0.take 50 ++ memeF3)
  else some meme_prompt

/-- The prompt string actually passed to the image backend:
`prompt=meme_prompt.strip()` at the `image.sample` call. -/
def meme_prompt_sent (consensus_points : List Str) (a b : Option Str) :
    Option Str :=
  (meme_prompt_built consensus_points a b).map pyStrip

/-- Mocked outcome of the `xai_client.image.sample` call. -/
inductive ImgOutcome where
  | raises
  | noUrl
  | url (u : Str)
  deriving DecidableEq

/-- `generate_peace_meme`: `None` without an SDK client; the prompt is built
(and `IndexError` may escape the function, since only the SDK call is inside
the `try`); any SDK failure or missing/empty URL degrades to `None`. -/
def generate_peace_meme (consensus_points : List Str)
    (_sideATitle _sideBTitle : Str)
    (side_a_username side_b_username : Option Str)
    (xai_client : Bool) (img : ImgOutcome) : Except Unit (Option Str) :=
  if xai_client = false then .ok none
  else
    match meme_prompt_sent consensus_points side_a_username side_b_username with
    | none => .error ()
    | some _prompt =>
      match img with
      | .raises => .ok none
      | .noUrl => .ok none
      | .url u => if u.isEmpty then .ok none else .ok (some u)

end Grok

/-! ### `call_grok_api`, `create_enhanced_prompt` and `analyze_thread` -/

namespace Grok

open XApi (insertKV lookupKV ThreadData Tweet)

/-- Mocked outcome of the completion POST in `call_grok_api`: a 2xx
response carrying the list of `choices[i].message.content` strings, an HTTP
error status, or a transport failure. -/
inductive GrokHttp where
  | ok (choices : List Str)
  | httpErr (status : Nat)
  | netErr
  deriving DecidableEq

/-- The raise sites of `call_grok_api` (each a generic `Exception` with an
identifying message: no choices, rate limited, invalid key, other API
error, wrapped transport failure). -/
inductive GrokCallErr where
  | noChoices
  | rateLimited
  | invalidKey
  | apiError
  | failed
  deriving DecidableEq

/-- `call_grok_api`. -/
def call_grok_api (resp : GrokHttp) : Except GrokCallErr Str :=
  match resp with
  | .ok choices =>
    (match choices with
      | [] => .error .noChoices
      | content :: _ => .ok content)
  | .httpErr status =>
    if status = 429 then .error .rateLimited
    else if status = 401 then .error .invalidKey
    else .error .apiError
  | .netErr => .error .failed

/-- `create_enhanced_prompt`. -/
def create_enhanced_prompt (thread_data : ThreadData) (live_context : Str) :
    Str :=
  let tweets_text := (thread_data.tweets.take 50).enum.map
    (fun p => natToStr (p.1 + 1) ++ (". @").toList ++ p.2.author_username
      ++ (": ").toList ++ p.2.text)
  let tweets_formatted := joinSep ['\n'] tweets_text
  let context_section :=
    if live_context.isEmpty then [] else
      ("\n\nLIVE CONTEXT (Current Information):\n").toList ++ live_context ++
        ("\n\nUse this current context to inform your analysis and ensure the consensus points are relevant to the current situation.\n").toList
  ("\nYou are analyzing a heated X/Twitter debate to find surprising common ground between opposing sides.\n\nTHREAD DATA:\nMain Tweet: ").toList
  ++ thread_data.main_tweet.text
  ++ ("\nTotal Tweets: ").toList
  ++ natToStr thread_data.tweets.length
  ++ ("\n\nTWEETS:\n").toList
  ++ tweets_formatted
  ++ context_section
  ++ ("\n\nANALYSIS TASK:\n1. Identify the two primary opposing viewpoints in this debate\n2. Cluster the tweets into Side A and Side B based on their stance\n3. Extract the core arguments from each side\n4. Find GENUINE common ground - shared values, concerns, or facts that both sides agree on\n5. Provide confidence score for your analysis\n\nRESPONSE FORMAT (JSON only):\n\x7b\n    \"sideA\": \x7b\n        \"title\": \"Clear, neutral title for Side A\x27s position\",\n        \"points\": [\"Key argument 1\", \"Key argument 2\", \"Key argument 3\"],\n        \"username\": \"primaryusername\" // Most representative @username for this side (without @)\n    \x7d,\n    \"sideB\": \x7b\n        \"title\": \"Clear, neutral title for Side B\x27s position\", \n        \"points\": [\"Key argument 1\", \"Key argument 2\", \"Key argument 3\"],\n        \"username\": \"otherusername\" // Most representative @username for this side (without @)\n    \x7d,\n    \"consensus\": [\n        \"Specific shared value/concern both sides agree on\",\n        \"Another genuine point of agreement\",\n        \"Third area of common ground\"\n    ],\n    \"confidence_score\": 0.85,\n    \"meme_prompt_suggestion\": \"Brief suggestion for a peace meme that celebrates this common ground\"\n\x7d\n\nIMPORTANT GUIDELINES:\n- Focus on GENUINE consensus, not superficial platitudes\n- Look for shared underlying values even when solutions differ\n- Be specific and concrete in identifying common ground\n- Use live context to ensure relevance\n- Return ONLY the JSON response, no additional text\n\nAnalyze this debate now:\n").toList

/-- `dict.update` on the metadata map. -/
def metaUpdate (base : List (Str × Json)) : List (Str × Json) →
    List (Str × Json)
  | [] => base
  | (k, v) :: rest => metaUpdate (insertKV base k v) rest

/-- The mocked collaborators of one `analyze_thread` run: the live-search
POST, the completion POST, the presence of the xAI SDK client, the image
call, and the elapsed wall-clock seconds (time is not modelled). -/
structure AnalyzeMocks where
  searchCall : Except Unit Str
  grokCall : GrokHttp
  xaiClient : Bool
  img : ImgOutcome
  elapsed : Rat
  deriving DecidableEq

/-- The raise sites of `analyze_thread`: every escaped exception of a
mandatory step is re-raised as
`Exception("Failed to analyze thread: " + str(e))`. -/
inductive AnalyzeErr where
  | fromCall (e : GrokCallErr)
  | fromParse (e : ParseErr)
  | memeIndexError
  deriving DecidableEq

/-- `analyze_thread`: topic extraction, best-effort live search, prompt
construction, completion call, response parsing, best-effort meme
generation, and assembly of the enhanced `ConsensusResponse`. -/
def analyze_thread (thread_data : ThreadData) (m : AnalyzeMocks) :
    Except AnalyzeErr ConsensusResponse :=
  let main_topic := thread_data.main_tweet.text.take 100
  let search_query := ("current news ").toList ++ main_topic
  let live_results := grok_live_search search_query 3 m.searchCall
  let live_context :=
    if live_results.isEmpty then [] else
      joinSep ['\n'] (live_results.map
        (fun r => ("- ").toList ++ r.title ++ (": ").toList ++ r.snippet))
  let _prompt := create_enhanced_prompt thread_data live_context
  match call_grok_api m.grokCall with
  | .error e => .error (.fromCall e)
  | .ok grok_response =>
    match parse_grok_response grok_response with
    | .error e => .error (.fromParse e)
    | .ok consensus_response =>
      match generate_peace_meme consensus_response.consensus
          consensus_response.sideA.title consensus_response.sideB.title
          consensus_response.sideA.username consensus_response.sideB.username
          m.xaiClient m.img with
      | .error _ => .error .memeIndexError
      | .ok meme_url =>
        .ok { consensus_response with
          live_search_results := live_results
          enhanced_context :=
            if live_context.isEmpty then none else some live_context
          peace_meme_url := meme_url
          meme_prompt := some
            (("Peace meme celebrating common ground between ").toList
              ++ consensus_response.sideA.title ++ (" and ").toList
              ++ consensus_response.sideB.title)
          processing_time := some m.elapsed
          confidence_score := some ((85 : Rat) / 100)
          metadata := metaUpdate consensus_response.metadata
            [((("analysis_method").toList),
                .str (("enhanced-multi-step").toList)),
              ((("live_search_enabled").toList),
                .bool (decide (0 < live_results.length))),
              ((("meme_generated").toList), .bool meme_url.isSome),
              ((("steps_completed").toList), .num 6),
              ((("processing_time_seconds").toList), .num m.elapsed)] }

end Grok

/-! ## C5 and C9 -/

namespace Grok

open XApi (insertKV lookupKV)

theorem findIdxC?_lt_length :
    ∀ (s : Str) (c : Char) (i : Nat), findIdxC? s c = some i → i < s.length := by
  intro s
  induction s with
  | nil => intro c i h; cases h
  | cons a rest ih =>
    intro c i h
    rw [findIdxC?] at h
    by_cases ha : a = c
    · rw [if_pos ha] at h
      cases h
      simp
    · rw [if_neg ha] at h
      cases hr : findIdxC? rest c with
      | none => rw [hr] at h; cases h
      | some j =>
        rw [hr] at h
        simp only [Option.map_some'] at h
        cases h
        have := ih c j hr
        simp only [List.length_cons]
        omega

theorem pyRfindC_add_one_ne (s : Str) (c : Char) : pyRfindC s c + 1 ≠ -1 := by
  unfold pyRfindC
  cases hr : findIdxC? s.reverse c with
  | none =>
    show (-1 : Int) + 1 ≠ -1
    decide
  | some i =>
    have hi := findIdxC?_lt_length s.reverse c i hr
    simp only [List.length_reverse] at hi
    show ((s.length : Int) - 1 - (i : Int)) + 1 ≠ -1
    omega

/-- C5 (corrected claim): the live-search step never raises — the outer
handler converts every escaped failure (transport or HTTP errors of the
call, a payload without usable content, a non-list `results` field or a
malformed entry) into an empty list, and model output with no `\x7b` also
yields the empty list; but when JSON decoding of the isolated substring
fails, the inner handler substitutes the one-element demo placeholder list
instead of an empty one. -/
theorem live_search_softfail_spec :
    (∀ (q : Str) (mr : Nat), grok_live_search q mr (.error ()) = [])
    ∧ (∀ (q : Str) (mr : Nat) (call : Except Unit Str),
      grok_live_search_inner q mr call = .error () →
      grok_live_search q mr call = [])
    ∧ (∀ (q : Str) (mr : Nat) (content : Str), pyFindC content '{' = -1 →
      grok_live_search q mr (.ok content) = [])
    ∧ (∀ (q : Str) (mr : Nat) (content : Str), pyFindC content '{' ≠ -1 →
      jloads (pySlice content (pyFindC content '{') (pyRfindC content '}' + 1))
        = none →
      grok_live_search q mr (.ok content) = demoResults q) := by
  have houter : ∀ (q : Str) (mr : Nat) (content : Str),
      grok_live_search q mr (.ok content) =
        match grok_live_search_body q mr content with
        | .ok results => results
        | .error _ => [] := fun _ _ _ => rfl
  refine ⟨fun q mr => rfl, ?_, ?_, ?_⟩
  · intro q mr call h
    unfold grok_live_search
    rw [h]
  · intro q mr content h
    rw [houter]
    unfold grok_live_search_body
    rw [if_neg (by simp [h])]
  · intro q mr content h hl
    rw [houter]
    unfold grok_live_search_body
    rw [if_pos ⟨h, pyRfindC_add_one_ne content '}'⟩, hl]

/-- Witness for C5 (corrected) at concrete inputs. -/
theorem live_search_softfail_spec_witness :
    grok_live_search (("climate").toList) 5 (.error ()) = []
    ∧ grok_live_search (("climate").toList) 5 (.ok (("no braces here").toList)) = []
    ∧ grok_live_search (("climate").toList) 5 (.ok ['{']) =
      demoResults (("climate").toList) := by
  refine ⟨live_search_softfail_spec.1 (("climate").toList) 5, ?_, ?_⟩
  · exact live_search_softfail_spec.2.2.1 (("climate").toList) 5
      (("no braces here").toList) (by rfl)
  · exact live_search_softfail_spec.2.2.2 (("climate").toList) 5 ['{']
      (by decide) (by rfl)

/-- Counterexample to C5 as stated: model output containing a `\x7b` that
fails JSON decoding makes the step return the non-empty demo placeholder
list, not the empty list the claim requires. -/
theorem live_search_demo_counterexample :
    grok_live_search (("climate").toList) 5 (.ok ['{']) =
      demoResults (("climate").toList)
    ∧ demoResults (("climate").toList) ≠ [] := by
  exact ⟨by rfl, by decide⟩

theorem meme_personas_length (a b : Option Str) :
    meme_personas a b = [] ∨
      (meme_personas a b).length =
        50 + (a.getD []).length + (b.getD []).length := by
  unfold meme_personas
  by_cases h : (truthyOpt a && truthyOpt b) = true
  · rw [if_pos h]
    right
    simp [List.length_append]
    omega
  · rw [if_neg h]
    left
    rfl

/-- C9 (corrected claim), after `generate_peace_meme` at `grok_service.py`
lines 255-279: the prompt actually sent to the image backend is the primary
template when that is within the 1024-character limit, and the shorter
fallback template otherwise (strictly shorter, truncating the first
consensus point to 50 characters); the 1024 bound on the sent prompt holds
whenever the personas fragment is absent or the two embedded handles total
at most 857 characters — the fallback embeds the handles unshortened and is
never re-checked, so the bound is not unconditional. -/
theorem meme_prompt_length_spec :
    (∀ (points : List Str) (a b : Option Str),
      ¬ (meme_primary points a b).length > 1024 →
      meme_prompt_sent points a b = some (pyStrip (meme_primary points a b)))
    ∧ (∀ (points : List Str) (a b : Option Str) (c0 : Str) (rest : List Str),
      points = c0 :: rest → (meme_primary points a b).length > 1024 →
      meme_prompt_sent points a b = some (pyStrip
          (memeF1 ++ meme_personas a b ++ memeF2 ++ c0.take 50 ++ memeF3))
      ∧ (memeF1 ++ meme_personas a b ++ memeF2 ++ c0.take 50 ++ memeF3).length
          < (meme_primary points a b).length)
    ∧ (∀ (points : List Str) (a b : Option Str) (s : Str),
      meme_prompt_sent points a b = some s →
      (meme_personas a b = [] ∨
        (a.getD []).length + (b.getD []).length ≤ 857) →
      s.length ≤ 1024) := by
  have hP1 : memeP1.length = 50 := by rfl
  have hP2 : memeP2.length = 22 := by rfl
  have hP3 : memeP3.length = 130 := by rfl
  have hF1 : memeF1.length = 12 := by rfl
  have hF2 : memeF2.length = 12 := by rfl
  have hF3 : memeF3.length = 43 := by rfl
  refine ⟨?_, ?_, ?_⟩
  · intro points a b h
    unfold meme_prompt_sent meme_prompt_built
    rw [if_neg h]
    rfl
  · intro points a b c0 rest hpts h
    subst hpts
    constructor
    · unfold meme_prompt_sent meme_prompt_built
      rw [if_pos h]
      rfl
    · have hshared : c0.length ≤ (meme_shared_values (c0 :: rest)).length := by
        unfold meme_shared_values
        cases rest with
        | nil => simp [List.take, joinSep]
        | cons c1 more =>
          simp [List.take, joinSep, List.length_append]
      have htake : (c0.take 50).length ≤ c0.length := by
        simp [List.length_take]
      unfold meme_primary
      simp only [List.length_append]
      omega
  · intro points a b s hs hbound
    unfold meme_prompt_sent meme_prompt_built at hs
    by_cases h : (meme_primary points a b).length > 1024
    · rw [if_pos h] at hs
      cases points with
      | nil => cases hs
      | cons c0 rest =>
        simp only [Option.map_some'] at hs
        cases hs
        have hstrip := length_pyStrip_le
          (memeF1 ++ meme_personas a b ++ memeF2 ++ c0.take 50 ++ memeF3)
        have htake : (c0.take 50).length ≤ 50 := by
          simp [List.length_take]
        have hpers : (meme_personas a b).length ≤ 907 := by
          rcases meme_personas_length a b with hp | hp
          · rw [hp]
            simp
          · rcases hbound with hb | hb
            · rw [hb]
              simp
            · rw [hp]
              omega
        simp only [List.length_append] at hstrip
        omega
    · rw [if_neg h] at hs
      simp only [Option.map_some'] at hs
      cases hs
      have hstrip := length_pyStrip_le (meme_primary points a b)
      omega

set_option maxRecDepth 4096 in
/-- Witness for C9 (corrected) at concrete inputs. -/
theorem meme_prompt_length_spec_witness :
    meme_prompt_sent [(("saving lives").toList)] (some (("alice").toList))
        (some (("bob").toList))
      = some (pyStrip (meme_primary [(("saving lives").toList)]
          (some (("alice").toList)) (some (("bob").toList))))
    ∧ (match meme_prompt_sent [(("saving lives").toList)]
          (some (("alice").toList)) (some (("bob").toList)) with
        | some s => s.length ≤ 1024
        | none => False) := by
  constructor
  · exact meme_prompt_length_spec.1 [(("saving lives").toList)]
      (some (("alice").toList)) (some (("bob").toList)) (by decide)
  · cases hs : meme_prompt_sent [(("saving lives").toList)]
        (some (("alice").toList)) (some (("bob").toList)) with
    | some s =>
      exact meme_prompt_length_spec.2.2 [(("saving lives").toList)]
        (some (("alice").toList)) (some (("bob").toList)) s hs
        (Or.inr (by decide))
    | none =>
      have hsome : (meme_prompt_sent [(("saving lives").toList)]
          (some (("alice").toList)) (some (("bob").toList))).isSome = true := by
        decide
      rw [hs] at hsome
      cases hsome

set_option maxRecDepth 16384 in
/-- Counterexample to C9 as stated: with a 950-character representative
handle the primary prompt overflows, and the substituted fallback template
(`grok_service.py` line 266, which embeds the handles unshortened and is
never re-checked against the limit) still exceeds the 1024-character limit —
the prompt passed to the backend has 1069 characters.  The last conjunct
shows the backend call nevertheless proceeds with that prompt: with the SDK
client present, `generate_peace_meme` on the same inputs completes the image
call and returns its URL, so no guard stops the over-long prompt from being
sent. -/
theorem meme_prompt_overflow_counterexample :
    (meme_prompt_sent [(("p").toList)] (some (List.replicate 950 'x'))
        (some (("b").toList))).map List.length = some 1069
    ∧ 1024 < 1069
    ∧ generate_peace_meme [(("p").toList)] [] []
        (some (List.replicate 950 'x')) (some (("b").toList)) true
        (.url (("u").toList))
      = .ok (some (("u").toList)) := by
  exact ⟨by decide, by decide, by decide⟩

/-! ## C3: response parsing -/

theorem findIdxC?_append_cons (a b : Str) (c : Char) (ha : c ∉ a) :
    findIdxC? (a ++ c :: b) c = some a.length := by
  induction a with
  | nil => simp [findIdxC?]
  | cons x xs ih =>
    have hx : x ≠ c := by
      intro he
      exact ha (by simp [he])
    have ha2 : c ∉ xs := fun hm => ha (by simp [hm])
    simp [findIdxC?, hx, ih ha2]

theorem pyFindC_append_cons (a b : Str) (c : Char) (ha : c ∉ a) :
    pyFindC (a ++ c :: b) c = (a.length : Int) := by
  unfold pyFindC
  rw [findIdxC?_append_cons a b c ha]

theorem grok_find_json_spec (pre mid post : Str)
    (hpre : '{' ∉ pre) (hpost : '}' ∉ post) :
    grok_find_json (pre ++ '{' :: (mid ++ '}' :: post)) =
      .ok ('{' :: (mid ++ ['}'])) := by
  have hfind : pyFindC (pre ++ '{' :: (mid ++ '}' :: post)) '{'
      = (pre.length : Int) := pyFindC_append_cons pre _ '{' hpre
  have hrevrep : (pre ++ '{' :: (mid ++ '}' :: post)).reverse
      = post.reverse ++ '}' :: (mid.reverse ++ '{' :: pre.reverse) := by
    simp
  have hlen : (pre ++ '{' :: (mid ++ '}' :: post)).length
      = pre.length + mid.length + 2 + post.length := by
    simp [List.length_append]
    omega
  have hrf : pyRfindC (pre ++ '{' :: (mid ++ '}' :: post)) '}'
      = ((pre ++ '{' :: (mid ++ '}' :: post)).length : Int) - 1
          - (post.length : Int) := by
    unfold pyRfindC
    rw [hrevrep, findIdxC?_append_cons _ _ '}' (by simpa using hpost)]
    simp
  unfold grok_find_json
  rw [hfind, hrf]
  have hc1 : (pre.length : Int) ≠ -1 := by omega
  have hc2 : ((pre ++ '{' :: (mid ++ '}' :: post)).length : Int) - 1
      - (post.length : Int) + 1 ≠ -1 := by
    rw [hlen]
    push_cast
    omega
  rw [if_pos ⟨hc1, hc2⟩]
  have hsplit : pre ++ '{' :: (mid ++ '}' :: post)
      = (pre ++ '{' :: (mid ++ ['}'])) ++ post := by
    simp
  have hE : (((pre ++ '{' :: (mid ++ '}' :: post)).length : Int) - 1
      - (post.length : Int) + 1).toNat = pre.length + mid.length + 2 := by
    rw [hlen]
    omega
  unfold pySlice
  rw [hE, hsplit]
  rw [List.take_left' (by simp [List.length_append]; omega)]
  rw [show (((pre.length : Nat) : Int)).toNat = pre.length from by omega]
  rw [List.drop_left' rfl]

theorem grok_strip_fence_wrapped (mid : Str) :
    grok_strip_fence ((("```json").toList) ++ ('{' :: (mid ++ ['}']))
        ++ (("```").toList)) = '{' :: (mid ++ ['}']) := by
  have hsw : startsWithL ((("```json").toList) ++ ('{' :: (mid ++ ['}']))
      ++ (("```").toList)) (("```json").toList) = true := by
    unfold startsWithL
    rw [List.append_assoc, dropPre?_append]
    rfl
  have hdrop : (((("```json").toList) ++ ('{' :: (mid ++ ['}']))
      ++ (("```").toList))).drop 7
      = ('{' :: (mid ++ ['}'])) ++ (("```").toList) := by
    rw [List.append_assoc]
    exact List.drop_left' rfl
  have hew : endsWithL (('{' :: (mid ++ ['}'])) ++ (("```").toList))
      (("```").toList) = true := by
    unfold endsWithL
    rw [List.reverse_append]
    rw [show ((("```").toList)).reverse = ("```").toList from rfl]
    rw [dropPre?_append]
    rfl
  have hdr : dropRightL (('{' :: (mid ++ ['}'])) ++ (("```").toList)) 3
      = '{' :: (mid ++ ['}']) := by
    unfold dropRightL
    rw [List.length_append]
    rw [show ((("```").toList)).length = 3 from rfl]
    rw [Nat.add_sub_cancel]
    exact List.take_left _ _
  unfold grok_strip_fence
  rw [hsw]
  simp only [if_true]
  rw [hdrop, hew]
  simp only [if_true]
  exact hdr

theorem pyStrip_fence_wrapped (mid : Str) :
    pyStrip ((("```json").toList) ++ ('{' :: (mid ++ ['}']))
        ++ (("```").toList))
      = (("```json").toList) ++ ('{' :: (mid ++ ['}'])) ++ (("```").toList) := by
  have hshape : (("```json").toList) ++ ('{' :: (mid ++ ['}']))
      ++ (("```").toList)
      = '\x60' :: ((('\x60' :: '\x60' :: 'j' :: 's' :: 'o' :: 'n' :: [])
          ++ ('{' :: (mid ++ ['}'])) ++ ('\x60' :: '\x60' :: [])) ++ ['\x60']) := by
    show ('\x60' :: '\x60' :: '\x60' :: 'j' :: 's' :: 'o' :: 'n' :: [])
        ++ ('{' :: (mid ++ ['}'])) ++ ('\x60' :: '\x60' :: '\x60' :: []) = _
    simp
  rw [hshape, pyStrip_of_ends _ (by decide) (by decide)]

theorem pyIn_obj (kvs : List (Str × Json)) (k : Str) :
    pyIn (.obj kvs) k = (lookupKV kvs k).isSome := rfl

theorem parse_validate_missing_sideA (kvs : List (Str × Json))
    (h : lookupKV kvs (("sideA").toList) = none) :
    parse_validate (.obj kvs)
      = .error (.missingRequiredField (("sideA").toList)) := by
  unfold parse_validate
  rw [pyIn_obj, h]
  rfl

theorem parse_validate_missing_sideB (kvs : List (Str × Json)) (vA : Json)
    (hA : lookupKV kvs (("sideA").toList) = some vA)
    (h : lookupKV kvs (("sideB").toList) = none) :
    parse_validate (.obj kvs)
      = .error (.missingRequiredField (("sideB").toList)) := by
  unfold parse_validate
  rw [pyIn_obj (k := (("sideA").toList)), hA]
  rw [if_neg (by simp)]
  rw [pyIn_obj (k := (("sideB").toList)), h]
  rfl

theorem parse_validate_missing_consensus (kvs : List (Str × Json))
    (vA vB : Json)
    (hA : lookupKV kvs (("sideA").toList) = some vA)
    (hB : lookupKV kvs (("sideB").toList) = some vB)
    (h : lookupKV kvs (("consensus").toList) = none) :
    parse_validate (.obj kvs)
      = .error (.missingRequiredField (("consensus").toList)) := by
  unfold parse_validate
  rw [pyIn_obj (k := (("sideA").toList)), hA]
  rw [if_neg (by simp)]
  rw [pyIn_obj (k := (("sideB").toList)), hB]
  rw [if_neg (by simp)]
  rw [pyIn_obj (k := (("consensus").toList)), h]
  rfl

theorem parse_validate_defaults (data : Json) (r : ConsensusResponse)
    (hok : parse_validate data = .ok r) :
    (jget data (("confidence_score").toList) = none →
      r.confidence_score = some ((8 : Rat) / 10))
    ∧ (jget data (("meme_prompt_suggestion").toList) = none →
      lookupKV r.metadata (("meme_suggestion").toList) = some (.str [])) := by
  unfold parse_validate at hok
  by_cases hA : pyIn data (("sideA").toList) = false
  · rw [if_pos hA] at hok; cases hok
  rw [if_neg hA] at hok
  by_cases hB : pyIn data (("sideB").toList) = false
  · rw [if_pos hB] at hok; cases hok
  rw [if_neg hB] at hok
  by_cases hC : pyIn data (("consensus").toList) = false
  · rw [if_pos hC] at hok; cases hok
  rw [if_neg hC] at hok
  cases e1 : getItem data (("sideA").toList) with
  | error e =>
      simp only [e1] at hok
      exact Except.noConfusion hok
  | ok sideAJ =>
    simp only [e1] at hok
    cases e2 : buildSide sideAJ with
    | error e =>
      simp only [e2] at hok
      exact Except.noConfusion hok
    | ok side_a =>
      simp only [e2] at hok
      cases e3 : getItem data (("sideB").toList) with
      | error e =>
      simp only [e3] at hok
      exact Except.noConfusion hok
      | ok sideBJ =>
        simp only [e3] at hok
        cases e4 : buildSide sideBJ with
        | error e =>
      simp only [e4] at hok
      exact Except.noConfusion hok
        | ok side_b =>
          simp only [e4] at hok
          cases e5 : getItem data (("consensus").toList) with
          | error e =>
      simp only [e5] at hok
      exact Except.noConfusion hok
          | ok consensusJ =>
            simp only [e5] at hok
            cases e6 : coerceStrList consensusJ with
            | error e =>
      simp only [e6] at hok
      exact Except.noConfusion hok
            | ok consensus =>
              simp only [e6] at hok
              cases e7 : coerceOptFloat
                  ((jget data (("confidence_score").toList)).getD
                    (.num ((8 : Rat) / 10))) with
              | error e =>
      simp only [e7] at hok
      exact Except.noConfusion hok
              | ok cs =>
                simp only [e7] at hok
                cases e8 : pyLen
                    ((jget data (("tweets_analyzed").toList)).getD
                      (.arr [])) with
                | error e =>
      simp only [e8] at hok
      exact Except.noConfusion hok
                | ok tweet_count =>
                  simp only [e8] at hok
                  injection hok with hrec
                  subst hrec
                  constructor
                  · intro hconf
                    rw [hconf] at e7
                    simp only [Option.getD_none] at e7
                    unfold coerceOptFloat at e7
                    injection e7 with hcs
                    exact hcs.symm
                  · intro hmeme
                    rw [hmeme]
                    rfl

/-- C3: `parse_grok_response` strips a Markdown ` ```json ... ``` ` fence
when present, isolates the substring from the first `\x7b` to the last
`\x7d`, fails with a missing-required-field error when any of `sideA`,
`sideB`, `consensus` is absent from the decoded object (the first missing
one, in that order), and defaults the absent optional keys
`confidence_score` and `meme_prompt_suggestion` to 0.8 and the empty
string. -/
theorem parse_grok_response_spec :
    (∀ mid : Str,
      grok_isolate_json ((("```json").toList) ++ ('{' :: (mid ++ ['}']))
          ++ (("```").toList))
        = .ok ('{' :: (mid ++ ['}'])))
    ∧ (∀ pre mid post : Str, '{' ∉ pre → '}' ∉ post →
      grok_find_json (pre ++ '{' :: (mid ++ '}' :: post))
        = .ok ('{' :: (mid ++ ['}'])))
    ∧ (∀ kvs : List (Str × Json), lookupKV kvs (("sideA").toList) = none →
      parse_validate (.obj kvs)
        = .error (.missingRequiredField (("sideA").toList)))
    ∧ (∀ (kvs : List (Str × Json)) (vA : Json),
      lookupKV kvs (("sideA").toList) = some vA →
      lookupKV kvs (("sideB").toList) = none →
      parse_validate (.obj kvs)
        = .error (.missingRequiredField (("sideB").toList)))
    ∧ (∀ (kvs : List (Str × Json)) (vA vB : Json),
      lookupKV kvs (("sideA").toList) = some vA →
      lookupKV kvs (("sideB").toList) = some vB →
      lookupKV kvs (("consensus").toList) = none →
      parse_validate (.obj kvs)
        = .error (.missingRequiredField (("consensus").toList)))
    ∧ (∀ (data : Json) (r : ConsensusResponse), parse_validate data = .ok r →
      (jget data (("confidence_score").toList) = none →
        r.confidence_score = some ((8 : Rat) / 10))
      ∧ (jget data (("meme_prompt_suggestion").toList) = none →
        lookupKV r.metadata (("meme_suggestion").toList) = some (.str []))) := by
  refine ⟨?_, grok_find_json_spec, parse_validate_missing_sideA,
    parse_validate_missing_sideB, parse_validate_missing_consensus,
    parse_validate_defaults⟩
  intro mid
  unfold grok_isolate_json
  rw [pyStrip_fence_wrapped, grok_strip_fence_wrapped]
  have := grok_find_json_spec [] mid [] (by simp) (by simp)
  simpa using this

/-- Concrete decoded object for the C3 witness. -/
def c3data : Json :=
  .obj [((("sideA").toList), .obj [((("title").toList), .str (("A").toList)),
          ((("points").toList), .arr [.str (("p").toList)])]),
        ((("sideB").toList), .obj [((("title").toList), .str (("B").toList)),
          ((("points").toList), .arr [])]),
        ((("consensus").toList), .arr [.str (("c").toList)])]

/-- Witness for C3 at concrete inputs. -/
theorem parse_grok_response_spec_witness :
    grok_isolate_json ((("```json").toList)
        ++ ('{' :: ((("\"x\": true").toList) ++ ['}'])) ++ (("```").toList))
      = .ok ('{' :: ((("\"x\": true").toList) ++ ['}']))
    ∧ grok_find_json ((("noise ").toList)
        ++ '{' :: ((("\"k\": true").toList) ++ '}' :: ((" tail").toList)))
      = .ok ('{' :: ((("\"k\": true").toList) ++ ['}']))
    ∧ parse_validate (.obj [])
      = .error (.missingRequiredField (("sideA").toList))
    ∧ parse_validate (.obj [((("sideA").toList), .null)])
      = .error (.missingRequiredField (("sideB").toList))
    ∧ parse_validate (.obj [((("sideA").toList), .null),
          ((("sideB").toList), .null)])
      = .error (.missingRequiredField (("consensus").toList))
    ∧ (match parse_validate c3data with
      | .ok r => r.confidence_score = some ((8 : Rat) / 10)
          ∧ lookupKV r.metadata (("meme_suggestion").toList) = some (.str [])
      | .error _ => False) := by
  refine ⟨parse_grok_response_spec.1 _,
    parse_grok_response_spec.2.1 _ _ _ (by decide) (by decide),
    parse_grok_response_spec.2.2.1 [] rfl,
    parse_grok_response_spec.2.2.2.1 _ .null rfl rfl,
    parse_grok_response_spec.2.2.2.2.1 _ .null .null rfl rfl rfl,
    ?_⟩
  cases hv : parse_validate c3data with
  | error e =>
    have hsome : (parse_validate c3data).isOk = true := by rfl
    rw [hv] at hsome
    cases hsome
  | ok r =>
    have h := parse_grok_response_spec.2.2.2.2.2 c3data r hv
    exact ⟨h.1 rfl, h.2 rfl⟩

/-! ## C7: optional fields of the assembled result -/

theorem generate_peace_meme_fail_none (points : List Str) (t1 t2 : Str)
    (a b : Option Str) (xc : Bool) (u : Option Str)
    (h : generate_peace_meme points t1 t2 a b xc .raises = .ok u) :
    u = none := by
  unfold generate_peace_meme at h
  by_cases hxc : xc = false
  · rw [if_pos hxc] at h
    injection h with h2
    exact h2.symm
  · rw [if_neg hxc] at h
    cases hp : meme_prompt_sent points a b with
    | none =>
      simp only [hp] at h
      exact Except.noConfusion h
    | some p =>
      simp only [hp] at h
      injection h with h2
      exact h2.symm

theorem parse_validate_success (data : Json) (r : ConsensusResponse)
    (hok : parse_validate data = .ok r) : r.success = true := by
  unfold parse_validate at hok
  by_cases hA : pyIn data (("sideA").toList) = false
  · rw [if_pos hA] at hok; cases hok
  rw [if_neg hA] at hok
  by_cases hB : pyIn data (("sideB").toList) = false
  · rw [if_pos hB] at hok; cases hok
  rw [if_neg hB] at hok
  by_cases hC : pyIn data (("consensus").toList) = false
  · rw [if_pos hC] at hok; cases hok
  rw [if_neg hC] at hok
  cases e1 : getItem data (("sideA").toList) with
  | error e =>
    simp only [e1] at hok
    exact Except.noConfusion hok
  | ok sideAJ =>
    simp only [e1] at hok
    cases e2 : buildSide sideAJ with
    | error e =>
      simp only [e2] at hok
      exact Except.noConfusion hok
    | ok side_a =>
      simp only [e2] at hok
      cases e3 : getItem data (("sideB").toList) with
      | error e =>
        simp only [e3] at hok
        exact Except.noConfusion hok
      | ok sideBJ =>
        simp only [e3] at hok
        cases e4 : buildSide sideBJ with
        | error e =>
          simp only [e4] at hok
          exact Except.noConfusion hok
        | ok side_b =>
          simp only [e4] at hok
          cases e5 : getItem data (("consensus").toList) with
          | error e =>
            simp only [e5] at hok
            exact Except.noConfusion hok
          | ok consensusJ =>
            simp only [e5] at hok
            cases e6 : coerceStrList consensusJ with
            | error e =>
              simp only [e6] at hok
              exact Except.noConfusion hok
            | ok consensus =>
              simp only [e6] at hok
              cases e7 : coerceOptFloat
                  ((jget data (("confidence_score").toList)).getD
                    (.num ((8 : Rat) / 10))) with
              | error e =>
                simp only [e7] at hok
                exact Except.noConfusion hok
              | ok cs =>
                simp only [e7] at hok
                cases e8 : pyLen
                    ((jget data (("tweets_analyzed").toList)).getD
                      (.arr [])) with
                | error e =>
                  simp only [e8] at hok
                  exact Except.noConfusion hok
                | ok tweet_count =>
                  simp only [e8] at hok
                  injection hok with hrec
                  subst hrec
                  rfl

theorem parse_grok_response_success (s : Str) (cr : ConsensusResponse)
    (h : parse_grok_response s = .ok cr) : cr.success = true := by
  unfold parse_grok_response at h
  cases hi : grok_isolate_json s with
  | error e =>
    simp only [hi] at h
    exact Except.noConfusion h
  | ok json_str =>
    simp only [hi] at h
    cases hl : jloads json_str with
    | none =>
      simp only [hl] at h
      exact Except.noConfusion h
    | some data =>
      simp only [hl] at h
      exact parse_validate_success data cr h

/-- C7: in the assembled analysis result, zero live-search results leave
`enhanced_context` as `None` (never the empty string), and a failing image
generation leaves `peace_meme_url` as `None` while the pipeline still
returns a result with `success = true`. -/
theorem analyze_optional_fields_spec (td : XApi.ThreadData) (m : AnalyzeMocks)
    (r : ConsensusResponse) (hok : analyze_thread td m = .ok r) :
    (grok_live_search ((("current news ").toList)
        ++ td.main_tweet.text.take 100) 3 m.searchCall = [] →
      r.enhanced_context = none)
    ∧ (m.img = .raises → r.peace_meme_url = none ∧ r.success = true) := by
  unfold analyze_thread at hok
  cases hc : call_grok_api m.grokCall with
  | error e =>
    simp only [hc] at hok
    exact Except.noConfusion hok
  | ok content =>
    simp only [hc] at hok
    cases hp : parse_grok_response content with
    | error e =>
      simp only [hp] at hok
      exact Except.noConfusion hok
    | ok cr =>
      simp only [hp] at hok
      cases hm : generate_peace_meme cr.consensus cr.sideA.title
          cr.sideB.title cr.sideA.username cr.sideB.username
          m.xaiClient m.img with
      | error e =>
        simp only [hm] at hok
        exact Except.noConfusion hok
      | ok meme_url =>
        simp only [hm] at hok
        injection hok with hrec
        subst hrec
        constructor
        · intro hls
          simp at hls
          simp [hls]
        · intro him
          rw [him] at hm
          have hnone := generate_peace_meme_fail_none cr.consensus
            cr.sideA.title cr.sideB.title cr.sideA.username
            cr.sideB.username m.xaiClient meme_url hm
          subst hnone
          exact ⟨rfl, parse_grok_response_success content cr hp⟩

/-- Concrete thread for the C7 witness. -/
def c7tweet : XApi.Tweet :=
  { id := ("1").toList
    text := ("hello world").toList
    author_id := ("a1").toList
    author_username := ("alice").toList
    author_name := none
    created_at := ("2024-01-01T00:00:00Z").toList
    referenced_tweets := none
    conversation_id := none }

/-- Concrete thread data for the C7 witness. -/
def c7td : XApi.ThreadData :=
  { thread_id := ("1").toList
    tweets := [c7tweet]
    main_tweet := c7tweet
    reply_count := 0
    users := []
    referenced_tweets := []
    quote_tweets := []
    reply_chain := [] }

/-- Concrete model output for the C7 witness. -/
def c7content : Str :=
  ("\x7b\"sideA\": \x7b\"title\": \"Pro\", \"points\": [\"p\"], \"username\": \"alice\"\x7d, \"sideB\": \x7b\"title\": \"Con\", \"points\": [\"q\"]\x7d, \"consensus\": [\"shared\"]\x7d").toList

/-- Concrete collaborator outcomes for the C7 witness: the live search
errors (zero results) and the image call raises. -/
def c7mocks : AnalyzeMocks :=
  { searchCall := .error ()
    grokCall := .ok [c7content]
    xaiClient := true
    img := .raises
    elapsed := 0 }

set_option maxRecDepth 4096 in
/-- Witness for C7 at concrete inputs. -/
theorem analyze_optional_fields_spec_witness :
    (match analyze_thread c7td c7mocks with
      | .ok r => r.enhanced_context = none ∧ r.peace_meme_url = none
          ∧ r.success = true
      | .error _ => False) := by
  cases hr : analyze_thread c7td c7mocks with
  | error e =>
    have hsome : (analyze_thread c7td c7mocks).isOk = true := by rfl
    rw [hr] at hsome
    cases hsome
  | ok r =>
    have h := analyze_optional_fields_spec c7td c7mocks r hr
    exact ⟨h.1 (by rfl), (h.2 rfl).1, (h.2 rfl).2⟩
